import Mathlib

/-!
Verification of the caching repository layer (`cmn/base_repo.py`) of the
KYC questionnaire platform.  The Python code is shallowly embedded:
values crossing the dynamic-typing boundary become the `PyVal` inductive,
Python exceptions become the `Exc` inductive carried in `Except`, and
the repository's side effects (cache store contents, log output, actual
cache-store invocations) are threaded explicitly through an `Effects`
record.  The external collaborators `CacheManager` (from `cmn/base_cache.py`)
and `DBManager` (from `cmn/base_model.py`) are not part of the examined
sources; they are modelled from the specification's interface contract
(spec §6) as a keyed store whose every call may fail, and a persistence
manager with get-by-id / get-all / filter / count / bulk operations.
-/

deriving instance DecidableEq for Except

/-- A Python exception as the repository distinguishes them: `ValueError`
(validation / normalized operation failure) versus any other exception. -/
inductive Exc where
  | valueError (msg : String)
  | other (msg : String)
deriving DecidableEq, Repr

/-- The message carried by an exception (Python `str(e)`). -/
def Exc.msg : Exc → String
  | .valueError m => m
  | .other m => m

/-- A dynamically typed Python value as it reaches the validation helpers:
`None`, an `int`, a `str`, or an object of some other type (identified by
its type name, as used in error messages). -/
inductive PyVal where
  | none
  | int (n : Int)
  | str (s : String)
  | obj (tyName : String)
deriving DecidableEq, Repr

/-- Rendering of a `PyVal` inside an f-string (Python `str(x)`). -/
def pyFormat : PyVal → String
  | .none => "None"
  | .int n => toString n
  | .str s => s
  | .obj t => "<" ++ t ++ " object>"

/-- Python type name of a `PyVal`, as used in error messages. -/
def pyTypeName : PyVal → String
  | .none => "NoneType"
  | .int _ => "int"
  | .str _ => "str"
  | .obj t => t

/-- An entity row as the Manager persists it: a numeric identifier plus an
opaque payload standing for the remaining fields. -/
structure Entity where
  id : Int
  data : Int
deriving DecidableEq, Repr

/-- A value held in one cache-store slot: a single entity, a list of
entities, or a count. -/
inductive CVal where
  | ent (e : Entity)
  | ents (l : List Entity)
  | cnt (n : Nat)
deriving DecidableEq, Repr

/-- Log levels used by the repository's logger calls. -/
inductive LogLevel where
  | debug
  | info
  | warning
  | error
deriving DecidableEq, Repr

/-- One emitted log line. -/
structure LogEntry where
  level : LogLevel
  msg : String
deriving DecidableEq, Repr

/-- One invocation actually issued against the cache store. -/
inductive StoreOp where
  | get (key : String)
  | set (key : String) (v : Option CVal)
  | del (key : String)
  | getOrSet (key : String) (v : Option CVal)
deriving DecidableEq, Repr

/-- The repository's observable effect state: the cache store's contents,
the log lines emitted so far, and the trace of cache-store invocations. -/
structure Effects where
  store : List (String × CVal)
  logs : List LogEntry
  ops : List StoreOp
deriving DecidableEq, Repr

/-- Append one log line. -/
def withLog (e : Effects) (lvl : LogLevel) (m : String) : Effects :=
  { e with logs := e.logs ++ [⟨lvl, m⟩] }

/-- Static repository configuration: the cache-key namespace pieces
(app label and lowercased model name) and the cache-enabled flag. -/
structure RepoConfig where
  appLabel : String
  modelName : String
  cacheEnabled : Bool
deriving DecidableEq, Repr

/-- Failure injection for the cache store: which calls raise, and the
exception text they raise with.  Quantifying over this models "any failure
raised by the cache store". -/
structure CacheFaults where
  failGet : String → Bool
  failSet : String → Bool
  failDelete : String → Bool
  failGetOrSet : String → Bool
  failMsg : String

/-- A fault assignment under which no cache call fails. -/
def noFaults : CacheFaults :=
  { failGet := fun _ => false, failSet := fun _ => false,
    failDelete := fun _ => false, failGetOrSet := fun _ => false,
    failMsg := "" }

/-- Modelled from the spec: the cache store's keyed slots (`base_cache.py`
is not among the examined sources).  Lookup of a key. -/
def storeLookup (m : List (String × CVal)) (k : String) : Option CVal :=
  (m.find? (fun p => p.1 == k)).map (fun p => p.2)

/-- Modelled from the spec: store a value under a key, replacing any
previous value. -/
def storeInsert (m : List (String × CVal)) (k : String) (v : CVal) :
    List (String × CVal) :=
  (k, v) :: m.filter (fun p => p.1 ≠ k)

/-- Modelled from the spec: remove a key's slot. -/
def storeErase (m : List (String × CVal)) (k : String) : List (String × CVal) :=
  m.filter (fun p => p.1 ≠ k)

/-- Modelled from the spec: `CacheManager.get` — records the invocation,
raises when the fault model says so, otherwise returns the slot (None on
miss). -/
def cmGet (f : CacheFaults) (k : String) (e : Effects) :
    Except Exc (Option CVal) × Effects :=
  let e := { e with ops := e.ops ++ [.get k] }
  if f.failGet k then (.error (.other f.failMsg), e)
  else (.ok (storeLookup e.store k), e)

/-- Modelled from the spec: `CacheManager.set` (timeouts are not modelled;
no examined claim depends on expiry).  Storing a Python `None` leaves the
slot observationally a miss, modelled as no change. -/
def cmSet (f : CacheFaults) (k : String) (v : Option CVal) (e : Effects) :
    Except Exc Unit × Effects :=
  let e := { e with ops := e.ops ++ [.set k v] }
  if f.failSet k then (.error (.other f.failMsg), e)
  else
    match v with
    | some w => (.ok (), { e with store := storeInsert e.store k w })
    | Option.none => (.ok (), { e with store := storeErase e.store k })

/-- Modelled from the spec: `CacheManager.delete`. -/
def cmDelete (f : CacheFaults) (k : String) (e : Effects) :
    Except Exc Unit × Effects :=
  let e := { e with ops := e.ops ++ [.del k] }
  if f.failDelete k then (.error (.other f.failMsg), e)
  else (.ok (), { e with store := storeErase e.store k })

/-- Modelled from the spec: `CacheManager.get_or_set` — return the
existing slot, else store the supplied value and return it. -/
def cmGetOrSet (f : CacheFaults) (k : String) (v : Option CVal) (e : Effects) :
    Except Exc (Option CVal) × Effects :=
  let e := { e with ops := e.ops ++ [.getOrSet k v] }
  if f.failGetOrSet k then (.error (.other f.failMsg), e)
  else
    match storeLookup e.store k with
    | some w => (.ok (some w), e)
    | Option.none =>
      match v with
      | some w => (.ok (some w), { e with store := storeInsert e.store k w })
      | Option.none => (.ok Option.none, e)

/-- Python `str.strip()`: drop leading and trailing whitespace. -/
def pyStrip (s : String) : String :=
  ⟨((s.data.dropWhile Char.isWhitespace).reverse.dropWhile Char.isWhitespace).reverse⟩

/-- Python `str.isdigit` restricted to ASCII decimal digits (the forms
`int(...)` accepts). -/
def pyIsdigit (s : String) : Bool :=
  s ≠ "" && s.data.all Char.isDigit

/-- Python `int(...)` on an all-digit string. -/
def digitsToNat (s : String) : Nat :=
  s.data.foldl (fun acc c => acc * 10 + (c.toNat - 48)) 0

/-- Embeds `BaseRepository._validate_id`: accept a positive `int` or an
all-digit `str` (canonicalized to the integer it denotes); reject `None`,
blank or non-numeric strings, non-positive values and other types. -/
def validateId (objId : PyVal) : Except Exc Int :=
  match objId with
  | .none => .error (.valueError "ID cannot be None")
  | .str s =>
    if pyStrip s = "" then .error (.valueError "ID cannot be empty string")
    else if ¬ pyIsdigit s then
      .error (.valueError ("Invalid ID format: '" ++ s ++ "' must be a positive integer"))
    else
      let n : Int := (digitsToNat s : Int)
      if n ≤ 0 then .error (.valueError ("ID must be positive, got " ++ toString n))
      else .ok n
  | .int n =>
    if n ≤ 0 then .error (.valueError ("ID must be positive, got " ++ toString n))
    else .ok n
  | .obj t => .error (.valueError ("ID must be an integer, got " ++ t))

/-- One field map entry survives cleaning when its value is neither
`None` nor the empty string. -/
def keptEntry (kv : String × PyVal) : Bool :=
  kv.2 ≠ PyVal.none && kv.2 ≠ PyVal.str ""

/-- Embeds `BaseRepository._validate_kwargs`: reject missing or empty field maps,
drop entries whose value is `None` or `""`, and reject maps that become
empty after cleaning. -/
def validateKwargs (kwargs : Option (List (String × PyVal))) (operation : String) :
    Except Exc (List (String × PyVal)) :=
  match kwargs with
  | Option.none => .error (.valueError ("No data provided for " ++ operation))
  | some d =>
    if d.isEmpty then .error (.valueError ("No data provided for " ++ operation))
    else
      let cleaned := d.filter keptEntry
      if cleaned.isEmpty then
        .error (.valueError ("No valid data provided for " ++ operation ++ " after cleaning"))
      else .ok cleaned

/-- An element of a bulk-operation instances list: a genuine model
instance or some other object. -/
inductive Inst where
  | entity (e : Entity)
  | notModel (tyName : String)
deriving DecidableEq, Repr

/-- Embeds `BaseRepository._validate_instances_list`: reject non-list input,
empty lists, and lists with a non-model element. -/
def validateInstancesList (instances : Option (List Inst)) (operation : String) :
    Except Exc (List Inst) :=
  match instances with
  | Option.none => .error (.valueError ("Instances must be a list for " ++ operation))
  | some l =>
    if l.isEmpty then .error (.valueError ("Empty instances list provided for " ++ operation))
    else
      match l.findIdx? (fun i => match i with | .entity _ => false | .notModel _ => true) with
      | some i =>
        .error (.valueError ("Instance at index " ++ toString i ++
          " is not a Django model instance"))
      | Option.none => .ok l

/-- Embeds `BaseRepository._validate_fields_list`: reject non-list input, empty
lists, and non-string or blank elements; trim each name. -/
def validateFieldsList (fields : Option (List PyVal)) (operation : String) :
    Except Exc (List String) :=
  match fields with
  | Option.none => .error (.valueError ("Fields must be a list for " ++ operation))
  | some l =>
    if l.isEmpty then .error (.valueError ("Empty fields list provided for " ++ operation))
    else
      match l.findIdx? (fun v => match v with
        | .str s => pyStrip s = ""
        | _ => true) with
      | some i =>
        .error (.valueError ("Field at index " ++ toString i ++ " must be a non-empty string"))
      | Option.none =>
        .ok (l.map (fun v => match v with | .str s => pyStrip s | _ => ""))

/-- The sensitive-key substrings of `_sanitize_log_data`. -/
def sensitiveFields : List String :=
  ["password", "token", "secret", "key", "api_key", "auth", "credential"]

/-- Substring test on character lists. -/
def charsInfixOf (needle hay : List Char) : Bool :=
  hay.tails.any (fun t => needle.isPrefixOf t)

/-- Substring test (Python `needle in hay`). -/
def strContains (hay needle : String) : Bool :=
  charsInfixOf needle.data hay.data

/-- Embeds `BaseRepository._sanitize_log_data` on scalar values: truncate strings
longer than 100 characters; leave other scalars unchanged. -/
def sanitizePy (v : PyVal) : PyVal :=
  match v with
  | .str s =>
    if s.length > 100 then .str ((s.take 100) ++ "...[TRUNCATED]") else .str s
  | w => w

/-- Embeds `BaseRepository._sanitize_log_data` on a field map: redact values of
keys containing a sensitive substring, sanitize the rest. -/
def sanitizeKwargs (d : List (String × PyVal)) : List (String × PyVal) :=
  d.map (fun kv =>
    if sensitiveFields.any (fun s => strContains kv.1.toLower s) then
      (kv.1, .str "[REDACTED]")
    else (kv.1, sanitizePy kv.2))

/-- Embeds `BaseRepository._get_cache_key`: `{app_label}.{model_name}.{id}`
(optional suffix). -/
def getCacheKey (cfg : RepoConfig) (objId : Int) (suffix : String) : String :=
  if suffix ≠ "" then
    cfg.appLabel ++ "." ++ cfg.modelName ++ "." ++ toString objId ++ "." ++ suffix
  else
    cfg.appLabel ++ "." ++ cfg.modelName ++ "." ++ toString objId

/-- Embeds `BaseRepository._get_collection_cache_key`:
`{app_label}.{model_name}.{suffix}`. -/
def getCollectionCacheKey (cfg : RepoConfig) (suffix : String) : String :=
  cfg.appLabel ++ "." ++ cfg.modelName ++ "." ++ suffix

/-- Names of the cache operations dispatched by the safe wrapper. -/
inductive CacheOp where
  | get
  | set
  | delete
  | getOrSet
deriving DecidableEq, Repr

/-- The operation name as it appears in the warning message. -/
def CacheOp.name : CacheOp → String
  | .get => "get"
  | .set => "set"
  | .delete => "delete"
  | .getOrSet => "get_or_set"

/-- The store invocation a cache operation issues. -/
def opTrace (op : CacheOp) (key : String) (value : Option CVal) : StoreOp :=
  match op with
  | .get => .get key
  | .set => .set key value
  | .delete => .del key
  | .getOrSet => .getOrSet key value

/-- Whether the fault model makes this cache call raise. -/
def CacheFaults.faults (f : CacheFaults) (op : CacheOp) (key : String) : Bool :=
  match op with
  | .get => f.failGet key
  | .set => f.failSet key
  | .delete => f.failDelete key
  | .getOrSet => f.failGetOrSet key

/-- The Python return value of `_safe_cache_operation`: `None`, a cached
value, or `True`. -/
inductive CacheRet where
  | pyNone
  | val (v : CVal)
  | pyTrue
deriving DecidableEq, Repr

/-- Lift a store lookup result to the Python return value. -/
def cacheRetOfOpt : Option CVal → CacheRet
  | some v => .val v
  | Option.none => .pyNone

/-- The warning line of `_safe_cache_operation`'s handler. -/
def cacheWarnMsg (op : CacheOp) (key : String) (msg : String) : String :=
  "Cache " ++ op.name ++ " operation failed for key '" ++ key ++ "': " ++ msg

/-- Embeds `BaseRepository._safe_cache_operation`: skip everything when caching
is disabled; otherwise dispatch to the cache store and catch any failure,
logging it as a warning and returning `None`. -/
def safeCacheOperation (cfg : RepoConfig) (f : CacheFaults) (op : CacheOp)
    (key : String) (value : Option CVal) (eff : Effects) :
    Except Exc CacheRet × Effects :=
  if cfg.cacheEnabled = false then (.ok .pyNone, eff)
  else
    match op with
    | .get =>
      match cmGet f key eff with
      | (.error ex, eff) => (.ok .pyNone, withLog eff .warning (cacheWarnMsg op key ex.msg))
      | (.ok r, eff) => (.ok (cacheRetOfOpt r), eff)
    | .set =>
      match cmSet f key value eff with
      | (.error ex, eff) => (.ok .pyNone, withLog eff .warning (cacheWarnMsg op key ex.msg))
      | (.ok _, eff) => (.ok .pyTrue, eff)
    | .delete =>
      match cmDelete f key eff with
      | (.error ex, eff) => (.ok .pyNone, withLog eff .warning (cacheWarnMsg op key ex.msg))
      | (.ok _, eff) => (.ok .pyTrue, eff)
    | .getOrSet =>
      match cmGetOrSet f key value eff with
      | (.error ex, eff) => (.ok .pyNone, withLog eff .warning (cacheWarnMsg op key ex.msg))
      | (.ok r, eff) => (.ok (cacheRetOfOpt r), eff)

/-- The warning line of `_invalidate_collection_caches`'s handler. -/
def invalidateWarnMsg (cfg : RepoConfig) (msg : String) : String :=
  "Failed to invalidate collection caches for " ++ cfg.modelName ++ ": " ++ msg

/-- The loop of `_invalidate_collection_caches`: delete each key in turn;
a failure aborts the loop, is logged as a warning, and is swallowed. -/
def invalidateLoop (cfg : RepoConfig) (f : CacheFaults) (keys : List String)
    (eff : Effects) : Except Exc Unit × Effects :=
  match keys with
  | [] => (.ok (), eff)
  | k :: ks =>
    match cmDelete f k eff with
    | (.error ex, eff) => (.ok (), withLog eff .warning (invalidateWarnMsg cfg ex.msg))
    | (.ok _, eff) => invalidateLoop cfg f ks eff

/-- The three collection keys `_invalidate_collection_caches` deletes. -/
def collectionKeys (cfg : RepoConfig) : List String :=
  [getCollectionCacheKey cfg "all",
   getCollectionCacheKey cfg "count",
   getCollectionCacheKey cfg "paginated"]

/-- Embeds `BaseRepository._invalidate_collection_caches`: no-op when caching is
disabled; otherwise delete the `all`, `count` and `paginated` collection
keys, swallowing (and warning about) any cache-store failure. -/
def invalidateCollectionCaches (cfg : RepoConfig) (f : CacheFaults)
    (eff : Effects) : Except Exc Unit × Effects :=
  if cfg.cacheEnabled = false then (.ok (), eff)
  else invalidateLoop cfg f (collectionKeys cfg) eff

/-- Modelled from the spec: the persistence Manager (`base_model.py`'s
`DBManager` is not among the examined sources).  `db` is the backing
store's current ordered contents; the `...Err` fields inject a failure
into the corresponding call; the function fields give the responses of
the calls whose outcome depends on their arguments. -/
structure Manager where
  db : List Entity
  getByIdErr : Option Exc := Option.none
  getAllErr : Option Exc := Option.none
  countErr : Option Exc := Option.none
  filterErr : Option Exc := Option.none
  existsErr : Option Exc := Option.none
  bulkDeleteErr : Option Exc := Option.none
  createRes : List (String × PyVal) → Except Exc (Option Entity) :=
    fun _ => .ok Option.none
  updateApply : Entity → List (String × PyVal) → Except Exc Entity :=
    fun e _ => .ok e
  deleteApply : Entity → Except Exc Unit := fun _ => .ok ()
  bulkCreateRes : List Inst → Int → Except Exc (List Entity) :=
    fun _ _ => .ok []
  bulkUpdateRes : List Inst → List String → Int → Except Exc (List Entity) :=
    fun _ _ _ => .ok []

/-- Modelled from the spec: one filter criterion matched against an
entity's fields. -/
def matchField (e : Entity) (kv : String × PyVal) : Bool :=
  if kv.1 = "id" then kv.2 == .int e.id
  else if kv.1 = "data" then kv.2 == .int e.data
  else false

/-- Modelled from the spec: `filter_by(**criteria)` keeps the entities
matching every criterion (no criteria keeps everything). -/
def matchesFilters (e : Entity) (fs : List (String × PyVal)) : Bool :=
  fs.all (matchField e)

/-- Modelled from the spec: `Manager.get_by_id` — the entity with the id,
or absent. -/
def managerGetById (m : Manager) (i : Int) : Except Exc (Option Entity) :=
  match m.getByIdErr with
  | some ex => .error ex
  | Option.none => .ok (m.db.find? (fun e => e.id == i))

/-- Modelled from the spec: `Manager.get_all` — the full ordered store. -/
def managerGetAll (m : Manager) : Except Exc (List Entity) :=
  match m.getAllErr with
  | some ex => .error ex
  | Option.none => .ok m.db

/-- Modelled from the spec: `Manager.count`. -/
def managerCount (m : Manager) : Except Exc Nat :=
  match m.countErr with
  | some ex => .error ex
  | Option.none => .ok m.db.length

/-- Modelled from the spec: `Manager.filter_by(**criteria)`. -/
def managerFilter (m : Manager) (fs : List (String × PyVal)) :
    Except Exc (List Entity) :=
  match m.filterErr with
  | some ex => .error ex
  | Option.none => .ok (m.db.filter (fun e => matchesFilters e fs))

/-- Modelled from the spec: `Manager.exists(**criteria)`. -/
def managerExists (m : Manager) (fs : List (String × PyVal)) :
    Except Exc Bool :=
  match m.existsErr with
  | some ex => .error ex
  | Option.none => .ok (m.db.any (fun e => matchesFilters e fs))

/-- Modelled from the spec: `Manager.bulk_delete_instances(**criteria)` —
the filtered bulk delete returns the deleted entities. -/
def managerBulkDelete (m : Manager) (fs : List (String × PyVal)) :
    Except Exc (List Entity) :=
  match m.bulkDeleteErr with
  | some ex => .error ex
  | Option.none => .ok (m.db.filter (fun e => matchesFilters e fs))

/-- The queryset slicing of `_fetch_all_entities`:
`queryset[offset:]` then `[:limit]`. -/
def sliceAll (db : List Entity) (limit : Option Nat) (offset : Nat) :
    List Entity :=
  let q := if offset > 0 then db.drop offset else db
  match limit with
  | some l => q.take l
  | Option.none => q

/-- Embeds `BaseRepository._fetch_all_entities`: fetch the full store through the
Manager, slice it, and log; a Manager failure is logged and re-raised. -/
def fetchAllEntities (cfg : RepoConfig) (m : Manager) (limit : Option Nat)
    (offset : Nat) (eff : Effects) : Except Exc (List Entity) × Effects :=
  match managerGetAll m with
  | .error ex =>
    (.error ex,
     withLog eff .error
       ("Failed to fetch " ++ cfg.modelName ++ " instances from DB: " ++ ex.msg))
  | .ok db =>
    let entities := sliceAll db limit offset
    (.ok entities,
     withLog eff .debug
       ("Successfully fetched " ++ toString entities.length ++ " " ++
        cfg.modelName ++ " instances"))

/-- The error line `get_entity_by_id` logs before wrapping a Manager
failure. -/
def gbiErrMsg (cfg : RepoConfig) (objId : PyVal) (msg : String) : String :=
  "Failed to fetch " ++ cfg.modelName ++ " by ID=" ++
    pyFormat (sanitizePy objId) ++ ": " ++ msg

/-- The generic handler at the bottom of `get_entity_by_id`'s `try`:
re-raise `ValueError` unchanged; log and wrap anything else. -/
def gbiHandle (cfg : RepoConfig) (objId : PyVal) (ex : Exc) (eff : Effects) :
    Except Exc (Option CVal) × Effects :=
  match ex with
  | .valueError s => (.error (.valueError s), eff)
  | .other s =>
    (.error (.valueError ("Failed to fetch entity by ID: " ++ s)),
     withLog eff .error (gbiErrMsg cfg objId s))

/-- Embeds `BaseRepository.get_entity_by_id`: validate the id, try the cache,
else fetch through the Manager and populate the cache on a hit from the
store; `ValueError`s propagate unchanged, any other failure is logged
once at error level and re-raised wrapped. -/
def getEntityById (cfg : RepoConfig) (f : CacheFaults) (m : Manager)
    (objId : PyVal) (eff : Effects) : Except Exc (Option CVal) × Effects :=
  match validateId objId with
  | .error ex => (.error ex, eff)
  | .ok vid =>
    let key := getCacheKey cfg vid ""
    match safeCacheOperation cfg f .get key Option.none eff with
    | (.error ex, eff) => gbiHandle cfg objId ex eff
    | (.ok (.val v), eff) =>
      (.ok (some v),
       withLog eff .debug
         ("Cache hit for " ++ cfg.modelName ++ " ID=" ++ toString vid))
    | (.ok _, eff) =>
      match managerGetById m vid with
      | .error ex => gbiHandle cfg objId ex eff
      | .ok Option.none =>
        (.ok Option.none,
         withLog eff .debug
           (cfg.modelName ++ " with ID=" ++ toString vid ++ " not found"))
      | .ok (some inst) =>
        match safeCacheOperation cfg f .set key (some (.ent inst)) eff with
        | (.error ex, eff) => gbiHandle cfg objId ex eff
        | (.ok _, eff) =>
          (.ok (some (.ent inst)),
           withLog eff .debug
             ("Fetched and cached " ++ cfg.modelName ++ " ID=" ++ toString vid))

/-- Generic bottom-of-`try` handler shared by the write/count/paginate
operations: re-raise `ValueError` unchanged; log anything else at error
level and re-raise it wrapped in a `ValueError` carrying the original
message. -/
def opHandle {α : Type} (wrapMsg : String) (logHead : String) (ex : Exc)
    (eff : Effects) : Except Exc α × Effects :=
  match ex with
  | .valueError s => (.error (.valueError s), eff)
  | .other s =>
    (.error (.valueError (wrapMsg ++ s)), withLog eff .error (logHead ++ s))

/-- Rendering of a field map inside a log f-string. -/
def fmtKwargs (d : List (String × PyVal)) : String :=
  String.intercalate ", " (d.map (fun kv => kv.1 ++ "=" ++ pyFormat kv.2))

/-- The collection cache-key suffix used by `get_all_entities`. -/
def getAllSuffix (limit : Option Int) (offset : Int) : String :=
  match limit with
  | some l => "all.limit_" ++ toString l ++ ".offset_" ++ toString offset
  | Option.none => "all"

/-- Handler of `get_all_entities`. -/
def gaeHandle (cfg : RepoConfig) (ex : Exc) (eff : Effects) :
    Except Exc CVal × Effects :=
  opHandle "Failed to fetch instances: "
    ("Failed to fetch " ++ cfg.modelName ++ " instances: ") ex eff

/-- The database branch of `get_all_entities`: fetch, cache the result,
return it. -/
def getAllFetch (cfg : RepoConfig) (f : CacheFaults) (m : Manager)
    (limit : Option Int) (offset : Int) (key : String) (eff : Effects) :
    Except Exc CVal × Effects :=
  match fetchAllEntities cfg m (limit.map Int.toNat) offset.toNat eff with
  | (.error ex, eff) => gaeHandle cfg ex eff
  | (.ok entities, eff) =>
    match safeCacheOperation cfg f .set key (some (.ents entities)) eff with
    | (.error ex, eff) => gaeHandle cfg ex eff
    | (.ok _, eff) => (.ok (.ents entities), eff)

/-- Embeds `BaseRepository.get_all_entities`: validate limit/offset, try
the collection cache (whose key embeds limit and offset), else fetch and
cache. -/
def getAllEntities (cfg : RepoConfig) (f : CacheFaults) (m : Manager)
    (limit : Option Int) (offset : Int) (eff : Effects) :
    Except Exc CVal × Effects :=
  match limit with
  | some l =>
    if l ≤ 0 then
      (.error (.valueError ("Limit must be a positive integer, got " ++ toString l)), eff)
    else if offset < 0 then
      (.error (.valueError ("Offset must be a non-negative integer, got " ++ toString offset)), eff)
    else
      let key := getCollectionCacheKey cfg (getAllSuffix limit offset)
      if cfg.cacheEnabled then
        match safeCacheOperation cfg f .get key Option.none eff with
        | (.error ex, eff) => gaeHandle cfg ex eff
        | (.ok (.val v), eff) =>
          (.ok v, withLog eff .debug ("Cache hit for " ++ cfg.modelName ++ " collection"))
        | (.ok _, eff) => getAllFetch cfg f m limit offset key eff
      else getAllFetch cfg f m limit offset key eff
  | Option.none =>
    if offset < 0 then
      (.error (.valueError ("Offset must be a non-negative integer, got " ++ toString offset)), eff)
    else
      let key := getCollectionCacheKey cfg (getAllSuffix limit offset)
      if cfg.cacheEnabled then
        match safeCacheOperation cfg f .get key Option.none eff with
        | (.error ex, eff) => gaeHandle cfg ex eff
        | (.ok (.val v), eff) =>
          (.ok v, withLog eff .debug ("Cache hit for " ++ cfg.modelName ++ " collection"))
        | (.ok _, eff) => getAllFetch cfg f m limit offset key eff
      else getAllFetch cfg f m limit offset key eff

/-- The batching loop of `get_entities_iterator`: fetch offset-paged
batches, yielding every entity, and stop at the first batch that is empty
or shorter than the batch size.  Returns the yielded entities and the
trace of `(limit, offset)` fetches issued. -/
def iterLoop (db : List Entity) (bs : Nat) (hbs : 0 < bs) (offset : Nat) :
    List Entity × List (Nat × Nat) :=
  if (sliceAll db (some bs) offset).isEmpty then ([], [(bs, offset)])
  else if h : (sliceAll db (some bs) offset).length < bs then
    (sliceAll db (some bs) offset, [(bs, offset)])
  else
    let rest := iterLoop db bs hbs (offset + bs)
    (sliceAll db (some bs) offset ++ rest.1, (bs, offset) :: rest.2)
termination_by db.length - offset
decreasing_by
  simp only [not_lt] at h
  have hlen : (sliceAll db (some bs) offset).length ≤ db.length - offset := by
    unfold sliceAll
    by_cases ho : offset > 0
    · simp [ho]
      try omega
    · simp [ho]
      try omega
  omega

/-- Embeds `BaseRepository.get_entities_iterator`: validate the batch
size, then run the batching loop; a Manager failure is wrapped in an
`Iterator failed` error.  Returns the produced sequence, the trace of
offset-paged fetches, and the effects (which never touch the cache). -/
def getEntitiesIterator (cfg : RepoConfig) (m : Manager) (batchSize : PyVal)
    (eff : Effects) :
    Except Exc (List Entity) × List (Nat × Nat) × Effects :=
  match batchSize with
  | .int b =>
    if hb : b ≤ 0 then
      (.error (.valueError ("Batch size must be a positive integer, got " ++ toString b)),
       [], eff)
    else
      match managerGetAll m with
      | .error ex =>
        (.error (.valueError ("Iterator failed: " ++ ex.msg)),
         [(b.toNat, 0)],
         withLog
           (withLog eff .error
             ("Failed to fetch " ++ cfg.modelName ++ " instances from DB: " ++ ex.msg))
           .error ("Error in entities iterator for " ++ cfg.modelName ++ ": " ++ ex.msg))
      | .ok db =>
        let r := iterLoop db b.toNat (by omega) 0
        (.ok r.1, r.2,
         { eff with logs := eff.logs ++ r.2.map (fun p =>
             ⟨.debug, "Successfully fetched " ++
               toString (sliceAll db (some p.1) p.2).length ++ " " ++
               cfg.modelName ++ " instances"⟩) })
  | v =>
    (.error (.valueError ("Batch size must be a positive integer, got " ++ pyFormat v)),
     [], eff)

/-- Embeds `BaseRepository.create_entity`: validate the field map, create
through the Manager, invalidate the collection caches, return the new
entity; a falsy Manager result raises a plain `ValueError`. -/
def createEntity (cfg : RepoConfig) (f : CacheFaults) (m : Manager)
    (kwargs : Option (List (String × PyVal))) (eff : Effects) :
    Except Exc Entity × Effects :=
  match validateKwargs kwargs "create" with
  | .error ex => (.error ex, eff)
  | .ok ck =>
    let eff := withLog eff .debug
      ("Creating " ++ cfg.modelName ++ " with data: " ++ fmtKwargs (sanitizeKwargs ck))
    match m.createRes ck with
    | .error ex =>
      opHandle "Failed to create entity: "
        ("Unexpected error creating " ++ cfg.modelName ++ " with data " ++
         fmtKwargs (sanitizeKwargs ck) ++ ": ") ex eff
    | .ok Option.none =>
      (.error (.valueError "Failed to create entity - manager returned None"), eff)
    | .ok (some inst) =>
      match invalidateCollectionCaches cfg f eff with
      | (.error ex, eff) =>
        opHandle "Failed to create entity: "
          ("Unexpected error creating " ++ cfg.modelName ++ " with data " ++
           fmtKwargs (sanitizeKwargs ck) ++ ": ") ex eff
      | (.ok _, eff) =>
        (.ok inst,
         withLog eff .info
           ("Successfully created " ++ cfg.modelName ++ " with ID=" ++ toString inst.id))

/-- Handler of `update_entity`. -/
def updHandle {α : Type} (cfg : RepoConfig) (objId : PyVal)
    (kwargs : List (String × PyVal)) (ex : Exc) (eff : Effects) :
    Except Exc α × Effects :=
  opHandle "Update failed: "
    ("Failed to update " ++ cfg.modelName ++ " ID=" ++ pyFormat (sanitizePy objId) ++
     " with data " ++ fmtKwargs (sanitizeKwargs kwargs) ++ ": ") ex eff

/-- Embeds `BaseRepository.update_entity`: validate id and fields, fetch
the entity through the Manager (never the cache); when absent, warn and
return not-found; otherwise mutate in place, delete the entity's cache
key, invalidate the collection caches and return the updated entity. -/
def updateEntity (cfg : RepoConfig) (f : CacheFaults) (m : Manager)
    (objId : PyVal) (kwargs : Option (List (String × PyVal))) (eff : Effects) :
    Except Exc (Option Entity) × Effects :=
  match validateId objId with
  | .error ex => (.error ex, eff)
  | .ok vid =>
    match validateKwargs kwargs "update" with
    | .error ex => (.error ex, eff)
    | .ok ck =>
      match managerGetById m vid with
      | .error ex => updHandle cfg objId ck ex eff
      | .ok Option.none =>
        (.ok Option.none,
         withLog eff .warning
           ("Update failed: " ++ cfg.modelName ++ " with ID " ++ toString vid ++
            " not found"))
      | .ok (some inst) =>
        match m.updateApply inst ck with
        | .error ex => updHandle cfg objId ck ex eff
        | .ok inst2 =>
          match safeCacheOperation cfg f .delete (getCacheKey cfg vid "") Option.none eff with
          | (.error ex, eff) => updHandle cfg objId ck ex eff
          | (.ok _, eff) =>
            match invalidateCollectionCaches cfg f eff with
            | (.error ex, eff) => updHandle cfg objId ck ex eff
            | (.ok _, eff) =>
              (.ok (some inst2),
               withLog eff .info
                 ("Successfully updated " ++ cfg.modelName ++ " ID=" ++ toString vid ++
                  " with data: " ++ fmtKwargs (sanitizeKwargs ck)))

/-- Handler of `delete_entity`. -/
def delHandle {α : Type} (cfg : RepoConfig) (objId : PyVal) (ex : Exc)
    (eff : Effects) : Except Exc α × Effects :=
  opHandle "Deletion failed: "
    ("Failed to delete " ++ cfg.modelName ++ " ID=" ++ pyFormat (sanitizePy objId) ++
     ": ") ex eff

/-- Embeds `BaseRepository.delete_entity`: validate the id, fetch through
the Manager; when absent, warn and return not-found; otherwise delete,
clear the entity's cache key, invalidate the collection caches and return
the deleted entity. -/
def deleteEntity (cfg : RepoConfig) (f : CacheFaults) (m : Manager)
    (objId : PyVal) (eff : Effects) : Except Exc (Option Entity) × Effects :=
  match validateId objId with
  | .error ex => (.error ex, eff)
  | .ok vid =>
    match managerGetById m vid with
    | .error ex => delHandle cfg objId ex eff
    | .ok Option.none =>
      (.ok Option.none,
       withLog eff .warning
         ("Delete failed: " ++ cfg.modelName ++ " with ID " ++ toString vid ++
          " not found"))
    | .ok (some inst) =>
      match m.deleteApply inst with
      | .error ex => delHandle cfg objId ex eff
      | .ok _ =>
        match safeCacheOperation cfg f .delete (getCacheKey cfg vid "") Option.none eff with
        | (.error ex, eff) => delHandle cfg objId ex eff
        | (.ok _, eff) =>
          match invalidateCollectionCaches cfg f eff with
          | (.error ex, eff) => delHandle cfg objId ex eff
          | (.ok _, eff) =>
            (.ok (some inst),
             withLog eff .info
               ("Successfully deleted " ++ cfg.modelName ++ " ID=" ++ toString vid))

/-- Embeds `BaseRepository.bulk_create_entities`. -/
def bulkCreateEntities (cfg : RepoConfig) (f : CacheFaults) (m : Manager)
    (instances : Option (List Inst)) (batchSize : PyVal) (eff : Effects) :
    Except Exc (List Entity) × Effects :=
  match validateInstancesList instances "bulk create" with
  | .error ex => (.error ex, eff)
  | .ok vi =>
    match batchSize with
    | .int b =>
      if b ≤ 0 then
        (.error (.valueError ("Batch size must be a positive integer, got " ++ toString b)), eff)
      else
        let eff := withLog eff .debug
          ("Starting bulk create of " ++ toString vi.length ++ " " ++
           cfg.modelName ++ " instances")
        match m.bulkCreateRes vi b with
        | .error ex =>
          opHandle "Bulk create failed: "
            ("Unexpected error during bulk create of " ++ cfg.modelName ++ ": ") ex eff
        | .ok created =>
          if created.isEmpty then
            (.error (.valueError "Bulk create failed - no instances were created"), eff)
          else
            match invalidateCollectionCaches cfg f eff with
            | (.error ex, eff) =>
              opHandle "Bulk create failed: "
                ("Unexpected error during bulk create of " ++ cfg.modelName ++ ": ") ex eff
            | (.ok _, eff) =>
              (.ok created,
               withLog eff .info
                 ("Successfully created " ++ toString created.length ++ "/" ++
                  toString vi.length ++ " " ++ cfg.modelName ++ " instances"))
    | v =>
      (.error (.valueError ("Batch size must be a positive integer, got " ++ pyFormat v)), eff)

/-- Embeds `BaseRepository.bulk_update_entities`. -/
def bulkUpdateEntities (cfg : RepoConfig) (f : CacheFaults) (m : Manager)
    (instances : Option (List Inst)) (fields : Option (List PyVal))
    (batchSize : PyVal) (eff : Effects) : Except Exc (List Entity) × Effects :=
  match validateInstancesList instances "bulk update" with
  | .error ex => (.error ex, eff)
  | .ok vi =>
    match validateFieldsList fields "bulk update" with
    | .error ex => (.error ex, eff)
    | .ok vf =>
      match batchSize with
      | .int b =>
        if b ≤ 0 then
          (.error (.valueError ("Batch size must be a positive integer, got " ++ toString b)), eff)
        else
          let eff := withLog eff .debug
            ("Starting bulk update of " ++ toString vi.length ++ " " ++
             cfg.modelName ++ " instances")
          match m.bulkUpdateRes vi vf b with
          | .error ex =>
            opHandle "Bulk update failed: "
              ("Unexpected error during bulk update of " ++ cfg.modelName ++
               " instances: ") ex eff
          | .ok updated =>
            if updated.isEmpty then
              (.error (.valueError "Bulk update failed - no instances were updated"), eff)
            else
              match invalidateCollectionCaches cfg f eff with
              | (.error ex, eff) =>
                opHandle "Bulk update failed: "
                  ("Unexpected error during bulk update of " ++ cfg.modelName ++
                   " instances: ") ex eff
              | (.ok _, eff) =>
                (.ok updated,
                 withLog eff .info
                   ("Successfully updated " ++ toString updated.length ++ "/" ++
                    toString vi.length ++ " " ++ cfg.modelName ++ " instances"))
      | v =>
        (.error (.valueError ("Batch size must be a positive integer, got " ++ pyFormat v)), eff)

/-- The body of `bulk_delete_entities` after its validation: delegate to
the Manager's filtered bulk delete (the instances list is not passed on),
invalidate the collection caches once, and return the deleted entities
with their count. -/
def bulkDeleteCore (cfg : RepoConfig) (f : CacheFaults) (m : Manager)
    (fs : List (String × PyVal)) (eff : Effects) :
    Except Exc (List Entity × Nat) × Effects :=
  let eff := withLog eff .debug
    ("Starting bulk delete of " ++ cfg.modelName ++ " instances (filters: " ++
     fmtKwargs (sanitizeKwargs fs) ++ ")")
  match managerBulkDelete m fs with
  | .error ex =>
    opHandle "Bulk delete failed: "
      ("Unexpected error during bulk delete of " ++ cfg.modelName ++
       " instances: ") ex eff
  | .ok deleted =>
    match invalidateCollectionCaches cfg f eff with
    | (.error ex, eff) =>
      opHandle "Bulk delete failed: "
        ("Unexpected error during bulk delete of " ++ cfg.modelName ++
         " instances: ") ex eff
    | (.ok _, eff) =>
      (.ok (deleted, deleted.length),
       withLog eff .info
         ("Successfully deleted " ++ toString deleted.length ++ " " ++
          cfg.modelName ++ " instances"))

/-- Embeds `BaseRepository.bulk_delete_entities`: when an instances list
is given it is only validated; the Manager's filtered bulk delete is
driven by the filters alone. -/
def bulkDeleteEntities (cfg : RepoConfig) (f : CacheFaults) (m : Manager)
    (instances : Option (List Inst)) (fs : List (String × PyVal)) (eff : Effects) :
    Except Exc (List Entity × Nat) × Effects :=
  match instances with
  | some l =>
    match validateInstancesList (some l) "bulk delete" with
    | .error ex => (.error ex, eff)
    | .ok _ => bulkDeleteCore cfg f m fs eff
  | Option.none =>
    if fs.isEmpty then
      (.error (.valueError "Either instances list or filters must be provided for bulk delete"), eff)
    else bulkDeleteCore cfg f m fs eff

/-- Insertion of one filter into a key-sorted filter list. -/
def insertSorted (kv : String × PyVal) : List (String × PyVal) → List (String × PyVal)
  | [] => [kv]
  | x :: xs => if kv.1 ≤ x.1 then kv :: x :: xs else x :: insertSorted kv xs

/-- Python `sorted(filters.items())` (dict keys are unique, so sorting by
key is total). -/
def sortFilters (fs : List (String × PyVal)) : List (String × PyVal) :=
  fs.foldr insertSorted []

/-- The deterministic filter fragment of the count cache key:
`"_".join(f"{k}_{v}" for k, v in sorted(filters.items()))`, or `all`. -/
def filtersStr (fs : List (String × PyVal)) : String :=
  if fs.isEmpty then "all"
  else String.intercalate "_" ((sortFilters fs).map (fun kv => kv.1 ++ "_" ++ pyFormat kv.2))

/-- Handler of `count_entities`. -/
def cntHandle (cfg : RepoConfig) (fs : List (String × PyVal)) (ex : Exc)
    (eff : Effects) : Except Exc CVal × Effects :=
  opHandle "Count operation failed: "
    ("Failed to count " ++ cfg.modelName ++ " instances (filters: " ++
     fmtKwargs (sanitizeKwargs fs) ++ "): ") ex eff

/-- Embeds `BaseRepository.count_entities`: try the filter-specific count
cache key, else count through the Manager (filtered or total) and cache
the result. -/
def countEntities (cfg : RepoConfig) (f : CacheFaults) (m : Manager)
    (fs : List (String × PyVal)) (eff : Effects) : Except Exc CVal × Effects :=
  let key := getCollectionCacheKey cfg ("count_" ++ filtersStr fs)
  match safeCacheOperation cfg f .get key Option.none eff with
  | (.error ex, eff) => cntHandle cfg fs ex eff
  | (.ok (.val v), eff) =>
    (.ok v, withLog eff .debug ("Cache hit for " ++ cfg.modelName ++ " count"))
  | (.ok _, eff) =>
    match (if fs.isEmpty then managerCount m
           else (managerFilter m fs).map List.length) with
    | .error ex => cntHandle cfg fs ex eff
    | .ok c =>
      match safeCacheOperation cfg f .set key (some (.cnt c)) eff with
      | (.error ex, eff) => cntHandle cfg fs ex eff
      | (.ok _, eff) =>
        (.ok (.cnt c),
         withLog eff .debug
           ("Counted " ++ toString c ++ " " ++ cfg.modelName ++ " instances"))

/-- Embeds `BaseRepository.exists_entity`: require at least one filter,
then delegate directly to the Manager, bypassing the cache. -/
def existsEntity (cfg : RepoConfig) (m : Manager)
    (fs : List (String × PyVal)) (eff : Effects) : Except Exc Bool × Effects :=
  if fs.isEmpty then
    (.error (.valueError "At least one filter must be provided for existence check"), eff)
  else
    match managerExists m fs with
    | .error ex =>
      opHandle "Existence check failed: "
        ("Failed existence check for " ++ cfg.modelName ++ " (filters: " ++
         fmtKwargs (sanitizeKwargs fs) ++ "): ") ex eff
    | .ok b =>
      (.ok b,
       withLog eff .debug ("Existence check for " ++ cfg.modelName ++ ": " ++ toString b))

/-- Swallowing handler of `clear_cache`: a `ValueError` re-raises; any
other failure is logged at error level and swallowed (cache clearing is
non-critical). -/
def ccSwallow (cfg : RepoConfig) (ex : Exc) (eff : Effects) :
    Except Exc Unit × Effects :=
  match ex with
  | .valueError s => (.error (.valueError s), eff)
  | .other s =>
    (.ok (), withLog eff .error ("Failed to clear cache for " ++ cfg.modelName ++ ": " ++ s))

/-- Embeds `BaseRepository.clear_cache`: with an id, validate it and
delete that entity's cache key; with no id, invalidate the collection
caches.  Non-validation failures are swallowed. -/
def clearCache (cfg : RepoConfig) (f : CacheFaults) (objId : Option PyVal)
    (eff : Effects) : Except Exc Unit × Effects :=
  match objId with
  | some v =>
    match validateId v with
    | .error ex => (.error ex, eff)
    | .ok vid =>
      match safeCacheOperation cfg f .delete (getCacheKey cfg vid "") Option.none eff with
      | (.error ex, eff) => ccSwallow cfg ex eff
      | (.ok _, eff) =>
        (.ok (),
         withLog eff .debug ("Cleared cache for " ++ cfg.modelName ++ " ID=" ++ toString vid))
  | Option.none =>
    match invalidateCollectionCaches cfg f eff with
    | (.error ex, eff) => ccSwallow cfg ex eff
    | (.ok _, eff) =>
      (.ok (), withLog eff .debug ("Cleared collection caches for " ++ cfg.modelName))

/-- The pagination result value object. -/
structure PageResult where
  entities : List Entity
  total_count : Nat
  page : Nat
  per_page : Nat
  total_pages : Nat
  has_next : Bool
  has_previous : Bool
deriving DecidableEq, Repr

/-- Handler of `get_paginated_entities`. -/
def pagHandle (cfg : RepoConfig) (page perPage : Int) (ex : Exc)
    (eff : Effects) : Except Exc PageResult × Effects :=
  opHandle "Pagination failed: "
    ("Failed to get paginated " ++ cfg.modelName ++ " entities (page=" ++
     toString page ++ ", per_page=" ++ toString perPage ++ "): ") ex eff

/-- Embeds `BaseRepository.get_paginated_entities`: bounds-check page and
per-page, compute the total through `count_entities`, derive total pages
by ceiling division and the offset, fetch the page slice, and assemble
the pagination result.  A cached total of a non-count shape makes the
arithmetic raise, which the handler wraps. -/
def getPaginatedEntities (cfg : RepoConfig) (f : CacheFaults) (m : Manager)
    (page perPage : Int) (fs : List (String × PyVal)) (eff : Effects) :
    Except Exc PageResult × Effects :=
  if page < 1 then
    (.error (.valueError ("Page must be a positive integer, got " ++ toString page)), eff)
  else if perPage < 1 then
    (.error (.valueError ("Per-page count must be a positive integer, got " ++ toString perPage)), eff)
  else if perPage > 1000 then
    (.error (.valueError ("Per-page count too large, maximum is 1000, got " ++ toString perPage)), eff)
  else
    match countEntities cfg f m fs eff with
    | (.error ex, eff) => pagHandle cfg page perPage ex eff
    | (.ok (.cnt tc), eff) =>
      let pg := page.toNat
      let pp := perPage.toNat
      let totalPages := (tc + pp - 1) / pp
      let offset := (pg - 1) * pp
      match (if fs.isEmpty then fetchAllEntities cfg m (some pp) offset eff
             else
               match managerFilter m fs with
               | .error ex => (.error ex, eff)
               | .ok l => (.ok ((l.drop offset).take pp), eff)) with
      | (.error ex, eff) => pagHandle cfg page perPage ex eff
      | (.ok entities, eff) =>
        (.ok { entities := entities, total_count := tc, page := pg, per_page := pp,
               total_pages := totalPages,
               has_next := decide (pg < totalPages),
               has_previous := decide (pg > 1) },
         withLog eff .debug
           ("Retrieved page " ++ toString pg ++ " of " ++ cfg.modelName ++ " entities"))
    | (.ok _, eff) =>
      pagHandle cfg page perPage
        (.other "unsupported operand type(s) for +: cached total is not an int") eff

/-- Concrete repository configuration with caching disabled, used by
concrete instantiations. -/
def cfgOff : RepoConfig := { appLabel := "app", modelName := "model", cacheEnabled := false }

/-- Concrete repository configuration with caching enabled. -/
def cfgOn : RepoConfig := { appLabel := "app", modelName := "model", cacheEnabled := true }

/-- Empty effect state. -/
def eff0 : Effects := { store := [], logs := [], ops := [] }

/-- A fault model under which every cache call fails. -/
def allFaults : CacheFaults :=
  { failGet := fun _ => true, failSet := fun _ => true,
    failDelete := fun _ => true, failGetOrSet := fun _ => true,
    failMsg := "cache backend down" }

/-- A backing store of 95 entities with ids 1..95. -/
def db95 : List Entity := (List.range 95).map (fun i => { id := (i : Int) + 1, data := 0 })

/-- Manager over the 95-entity store. -/
def m95 : Manager := { db := db95 }

/-- Manager over an empty store. -/
def mEmpty : Manager := { db := [] }

/-- Manager over a three-entity store. -/
def m3 : Manager := { db := [{ id := 1, data := 10 }, { id := 2, data := 20 }, { id := 3, data := 30 }] }

/-- Manager whose `get_by_id` raises a non-`ValueError` failure. -/
def mBoom : Manager := { db := [], getByIdErr := some (.other "Database connection failed") }

/-- Manager over a one-entity store (id 1). -/
def mC5 : Manager := { db := [{ id := 1, data := 0 }] }

/-- Effect state whose cache store holds a stale limit/offset-specific
collection entry. -/
def effC5 : Effects :=
  { store := [("app.model.all.limit_1.offset_0", CVal.ents [{ id := 2, data := 7 }])],
    logs := [], ops := [] }

/-- A raised validation error (`ValueError`). -/
def isValidationError {α : Type} (r : Except Exc α) : Prop :=
  ∃ s, r = .error (Exc.valueError s)

/-- Digits are not whitespace. -/
theorem digit_not_ws (c : Char) (h : c.isDigit = true) : c.isWhitespace = false := by
  rw [Bool.eq_false_iff]
  intro hw
  simp only [Char.isWhitespace, Bool.or_eq_true, decide_eq_true_eq] at hw
  rcases hw with ((h1 | h1) | h1) | h1 <;> subst h1 <;> exact absurd h (by decide)

/-- Dropping leading whitespace from an all-digit character list changes
nothing. -/
theorem dropWhile_ws_of_digits (l : List Char) (h : l.all Char.isDigit = true) :
    l.dropWhile Char.isWhitespace = l := by
  cases l with
  | nil => rfl
  | cons c cs =>
    simp only [List.all_cons, Bool.and_eq_true] at h
    simp [List.dropWhile, digit_not_ws c h.1]

/-- Stripping an all-digit string changes nothing. -/
theorem pyStrip_of_digits (s : String) (h : s.data.all Char.isDigit = true) :
    pyStrip s = s := by
  unfold pyStrip
  rw [dropWhile_ws_of_digits _ h]
  rw [dropWhile_ws_of_digits]
  · cases s; simp
  · simp only [List.all_eq_true] at h ⊢
    intro c hc
    exact h c (List.mem_reverse.mp hc)

/-- C3: ID validation returns the canonical integer for every positive
integer and for every all-digit string denoting a positive integer, and
raises a validation error on `None`, non-numeric strings, digit strings
denoting zero, non-positive integers, and non-integer-typed input. -/
theorem spec_c3_validate_id :
    (∀ n : Int, 0 < n → validateId (.int n) = .ok n) ∧
    (∀ s : String, pyIsdigit s = true → 0 < digitsToNat s →
      validateId (.str s) = .ok (digitsToNat s)) ∧
    isValidationError (validateId .none) ∧
    (∀ s : String, pyIsdigit s = false → isValidationError (validateId (.str s))) ∧
    (∀ s : String, pyIsdigit s = true → digitsToNat s = 0 →
      isValidationError (validateId (.str s))) ∧
    (∀ n : Int, n ≤ 0 → isValidationError (validateId (.int n))) ∧
    (∀ t : String, isValidationError (validateId (.obj t))) := by
  refine ⟨?_, ?_, ?_, ?_, ?_, ?_, ?_⟩
  · intro n hn
    simp [validateId, not_le.mpr hn]
  · intro s hd hpos
    have hall : s.data.all Char.isDigit = true := by
      simp only [pyIsdigit, Bool.and_eq_true] at hd
      exact hd.2
    have hne : s ≠ "" := by
      simp only [pyIsdigit, Bool.and_eq_true, ne_eq, decide_eq_true_eq] at hd
      exact hd.1
    have hstrip : pyStrip s = s := pyStrip_of_digits s hall
    have hip : ¬ ((digitsToNat s : Int) ≤ 0) := by
      have := hpos
      omega
    simp only [validateId, hstrip, hd]
    simp [hne, hip]
  · exact ⟨_, rfl⟩
  · intro s hd
    simp only [validateId]
    by_cases hs : pyStrip s = ""
    · simp only [hs, if_true]
      exact ⟨_, rfl⟩
    · simp only [hs, if_false, hd]
      simp
      exact ⟨_, rfl⟩
  · intro s hd hzero
    have hall : s.data.all Char.isDigit = true := by
      simp only [pyIsdigit, Bool.and_eq_true] at hd
      exact hd.2
    have hne : s ≠ "" := by
      simp only [pyIsdigit, Bool.and_eq_true, ne_eq, decide_eq_true_eq] at hd
      exact hd.1
    simp only [validateId, pyStrip_of_digits s hall, hd]
    simp [hne, hzero]
    exact ⟨_, rfl⟩
  · intro n hn
    simp [validateId, hn]
    exact ⟨_, rfl⟩
  · intro t
    exact ⟨_, rfl⟩

/-- Witness for C3 at concrete inputs. -/
theorem spec_c3_witness :
    validateId (.int 5) = .ok 5 ∧
    validateId (.str "12") = .ok 12 ∧
    isValidationError (validateId (.str "abc")) := by
  refine ⟨spec_c3_validate_id.1 5 (by decide), ?_, ?_⟩
  · have h := spec_c3_validate_id.2.1 "12" (by decide) (by decide)
    simpa using h
  · exact spec_c3_validate_id.2.2.2.1 "abc" (by decide)

/-- C7: field-map validation removes exactly the entries whose value is
null or the empty string; it raises a validation error on null or empty
input and on maps that clean to empty; otherwise it returns the cleaned
map. -/
theorem spec_c7_validate_kwargs :
    (∀ kv : String × PyVal,
      keptEntry kv = true ↔ kv.2 ≠ PyVal.none ∧ kv.2 ≠ PyVal.str "") ∧
    (∀ (d : List (String × PyVal)) (cleaned : List (String × PyVal)) (op : String),
      validateKwargs (some d) op = .ok cleaned →
      cleaned = d.filter keptEntry ∧
      (∀ kv, kv ∈ cleaned ↔ kv ∈ d ∧ kv.2 ≠ PyVal.none ∧ kv.2 ≠ PyVal.str "")) ∧
    (∀ op, isValidationError (validateKwargs Option.none op)) ∧
    (∀ op, isValidationError (validateKwargs (some []) op)) ∧
    (∀ (d : List (String × PyVal)) (op : String), d ≠ [] →
      d.filter keptEntry = [] → isValidationError (validateKwargs (some d) op)) ∧
    (∀ (d : List (String × PyVal)) (op : String), d ≠ [] →
      d.filter keptEntry ≠ [] →
      validateKwargs (some d) op = .ok (d.filter keptEntry)) := by
  refine ⟨?_, ?_, ?_, ?_, ?_, ?_⟩
  · intro kv
    simp [keptEntry]
  · intro d cleaned op h
    simp only [validateKwargs] at h
    by_cases hd : d.isEmpty
    · rw [if_pos hd] at h
      exact absurd h (by simp)
    · rw [if_neg hd] at h
      by_cases hc : (d.filter keptEntry).isEmpty
      · rw [if_pos hc] at h
        exact absurd h (by simp)
      · rw [if_neg hc] at h
        injection h with h
        subst h
        refine ⟨rfl, ?_⟩
        intro kv
        simp [List.mem_filter, keptEntry, and_assoc]
  · intro op
    exact ⟨_, rfl⟩
  · intro op
    exact ⟨_, rfl⟩
  · intro d op hd hc
    simp only [validateKwargs]
    rw [if_neg (by simpa [List.isEmpty_iff] using hd)]
    rw [if_pos (by simpa [List.isEmpty_iff] using hc)]
    exact ⟨_, rfl⟩
  · intro d op hd hc
    simp only [validateKwargs]
    rw [if_neg (by simpa [List.isEmpty_iff] using hd)]
    rw [if_neg (by simpa [List.isEmpty_iff] using hc)]

/-- Witness for C7 at a concrete field map. -/
theorem spec_c7_witness :
    validateKwargs (some [("a", PyVal.none), ("b", PyVal.str ""), ("c", PyVal.int 3)])
      "update" = .ok [("c", PyVal.int 3)] := by
  have h := spec_c7_validate_kwargs.2.2.2.2.2
    [("a", PyVal.none), ("b", PyVal.str ""), ("c", PyVal.int 3)] "update"
    (by decide) (by decide)
  simpa using h

/-- Normal form of one fetched batch. -/
theorem sliceAll_some_eq (db : List Entity) (l offset : Nat) :
    sliceAll db (some l) offset = (db.drop offset).take l := by
  unfold sliceAll
  by_cases ho : offset > 0
  · simp [ho]
  · have h0 : offset = 0 := by omega
    subst h0
    simp

/-- Normal form of an unlimited fetch. -/
theorem sliceAll_none_eq (db : List Entity) (offset : Nat) :
    sliceAll db Option.none offset = db.drop offset := by
  unfold sliceAll
  by_cases ho : offset > 0
  · simp [ho]
  · have h0 : offset = 0 := by omega
    subst h0
    simp


/-- The batching loop yields exactly the suffix of the store from its
starting offset, and issues fetches of size `bs` at offsets
`offset, offset + bs, offset + 2*bs, ...`, exactly
`(length - offset) / bs + 1` of them. -/
theorem iterLoop_spec (db : List Entity) (bs : Nat) (hbs : 0 < bs) (offset : Nat) :
    (iterLoop db bs hbs offset).1 = db.drop offset ∧
    (iterLoop db bs hbs offset).2 =
      (List.range ((db.length - offset) / bs + 1)).map (fun j => (bs, offset + j * bs)) := by
  refine iterLoop.induct db bs hbs
    (fun off => (iterLoop db bs hbs off).1 = db.drop off ∧
      (iterLoop db bs hbs off).2 =
        (List.range ((db.length - off) / bs + 1)).map (fun j => (bs, off + j * bs)))
    ?_ ?_ ?_ offset
  · intro off hempty
    rw [iterLoop, if_pos hempty]
    rw [sliceAll_some_eq] at hempty
    have hnil : db.drop off = [] := by
      rcases List.take_eq_nil_iff.mp (List.isEmpty_iff.mp hempty) with h | h
      · omega
      · exact h
    have hlen : db.length - off = 0 := by
      have := List.drop_eq_nil_iff.mp hnil
      omega
    simp [hnil, hlen, List.range_succ]
  · intro off hempty hshort
    rw [iterLoop, if_neg hempty, dif_pos hshort]
    rw [sliceAll_some_eq] at hshort ⊢
    have hqlen : (db.drop off).length < bs := by
      rw [List.length_take] at hshort
      omega
    have htake : (db.drop off).take bs = db.drop off :=
      List.take_of_length_le (by omega)
    have hdiv : (db.length - off) / bs = 0 := by
      apply Nat.div_eq_of_lt
      have := List.length_drop off db
      omega
    refine ⟨htake, ?_⟩
    simp [hdiv, List.range_succ]
  · intro off hempty hshort ih
    rw [iterLoop, if_neg hempty, dif_neg hshort]
    rw [sliceAll_some_eq] at hshort ⊢
    simp only [not_lt, List.length_take, Nat.le_min] at hshort
    have hql : (db.drop off).length = db.length - off := List.length_drop off db
    have hle : bs ≤ db.length - off := by omega
    obtain ⟨ih1, ih2⟩ := ih
    constructor
    · show (db.drop off).take bs ++ (iterLoop db bs hbs (off + bs)).1 = db.drop off
      rw [ih1]
      have hdd : db.drop (off + bs) = (db.drop off).drop bs := by
        rw [List.drop_drop]
        try congr 1
        try omega
      rw [hdd, List.take_append_drop]
    · show (bs, off) :: (iterLoop db bs hbs (off + bs)).2 =
        (List.range ((db.length - off) / bs + 1)).map (fun j => (bs, off + j * bs))
      rw [ih2]
      have harg : db.length - off - bs = db.length - (off + bs) := by omega
      have hdiv : (db.length - off) / bs = (db.length - (off + bs)) / bs + 1 := by
        rw [Nat.div_eq_sub_div hbs hle, harg]
      conv_rhs => rw [hdiv, List.range_succ_eq_map, List.map_cons, List.map_map]
      congr 1
      · simp
      · apply List.map_congr_left
        intro j hj
        simp [Function.comp]
        ring

/-- C8: for every positive integer batch size the iterator produces
exactly the store's entities in order, by offset-paged fetches of the
batch size at offsets `0, bs, 2*bs, ...`, stopping at the first short or
empty batch (hence `length / bs + 1` fetches); it touches neither the
cache store nor the invocation trace; a non-positive or non-integer batch
size raises a validation error; a Manager failure is re-raised wrapped. -/
theorem spec_c8_iterator :
    (∀ (cfg : RepoConfig) (m : Manager) (b : Int) (eff : Effects),
      0 < b → m.getAllErr = Option.none →
      (getEntitiesIterator cfg m (.int b) eff).1 = .ok m.db ∧
      (getEntitiesIterator cfg m (.int b) eff).2.1 =
        (List.range (m.db.length / b.toNat + 1)).map (fun j => (b.toNat, j * b.toNat)) ∧
      (getEntitiesIterator cfg m (.int b) eff).2.2.store = eff.store ∧
      (getEntitiesIterator cfg m (.int b) eff).2.2.ops = eff.ops) ∧
    (∀ (cfg : RepoConfig) (m : Manager) (b : Int) (eff : Effects), b ≤ 0 →
      isValidationError (getEntitiesIterator cfg m (.int b) eff).1 ∧
      (getEntitiesIterator cfg m (.int b) eff).2.2 = eff) ∧
    (∀ (cfg : RepoConfig) (m : Manager) (t : String) (eff : Effects),
      isValidationError (getEntitiesIterator cfg m (.obj t) eff).1 ∧
      isValidationError (getEntitiesIterator cfg m .none eff).1) ∧
    (∀ (cfg : RepoConfig) (m : Manager) (b : Int) (eff : Effects) (ex : Exc),
      0 < b → m.getAllErr = some ex →
      (getEntitiesIterator cfg m (.int b) eff).1 =
        .error (.valueError ("Iterator failed: " ++ ex.msg))) := by
  refine ⟨?_, ?_, ?_, ?_⟩
  · intro cfg m b eff hb herr
    have hbn : 0 < b.toNat := by omega
    obtain ⟨h1, h2⟩ := iterLoop_spec m.db b.toNat hbn 0
    simp only [getEntitiesIterator, managerGetAll, herr]
    rw [dif_neg (by omega)]
    refine ⟨?_, ?_, rfl, rfl⟩
    · simp only [h1, List.drop_zero]
    · rw [h2]
      simp only [Nat.sub_zero]
      apply List.map_congr_left
      intro j hj
      simp [Nat.zero_add]
  · intro cfg m b eff hb
    simp only [getEntitiesIterator]
    rw [dif_pos hb]
    exact ⟨⟨_, rfl⟩, rfl⟩
  · intro cfg m t eff
    exact ⟨⟨_, rfl⟩, ⟨_, rfl⟩⟩
  · intro cfg m b eff ex hb herr
    simp only [getEntitiesIterator, managerGetAll, herr]
    rw [dif_neg (by omega)]

/-- Witness for C8: batch size 2 over a three-entity store issues fetches
at offsets 0 and 2 and yields the store in order. -/
theorem spec_c8_witness :
    (getEntitiesIterator cfgOff m3 (.int 2) eff0).1 =
      .ok [{ id := 1, data := 10 }, { id := 2, data := 20 }, { id := 3, data := 30 }] ∧
    (getEntitiesIterator cfgOff m3 (.int 2) eff0).2.1 = [(2, 0), (2, 2)] ∧
    isValidationError (getEntitiesIterator cfgOff m3 (.int 0) eff0).1 := by
  have h := spec_c8_iterator.1 cfgOff m3 2 eff0 (by decide) rfl
  have h0 := spec_c8_iterator.2.1 cfgOff m3 0 eff0 (by decide)
  exact ⟨h.1, h.2.1.trans (by decide), h0.1⟩

/-- The safe cache wrapper never lets an exception escape. -/
theorem safeCacheOperation_ok (cfg : RepoConfig) (f : CacheFaults) (op : CacheOp)
    (key : String) (value : Option CVal) (eff : Effects) :
    ∃ r eff2, safeCacheOperation cfg f op key value eff = (.ok r, eff2) := by
  unfold safeCacheOperation
  by_cases hc : cfg.cacheEnabled = false
  · simp [hc]
  · simp only [hc, if_false]
    cases op with
    | get =>
      by_cases hf : f.failGet key <;> simp [cmGet, hf]
    | set =>
      by_cases hf : f.failSet key <;> cases value <;> simp [cmSet, hf]
    | delete =>
      by_cases hf : f.failDelete key <;> simp [cmDelete, hf]
    | getOrSet =>
      by_cases hf : f.failGetOrSet key
      · simp [cmGetOrSet, hf]
      · cases hsl : storeLookup eff.store key <;> cases value <;>
          simp [cmGetOrSet, hf, hsl]

/-- Cache operations are skipped entirely when caching is disabled. -/
theorem safeCacheOperation_disabled (cfg : RepoConfig) (f : CacheFaults)
    (op : CacheOp) (key : String) (value : Option CVal) (eff : Effects)
    (h : cfg.cacheEnabled = false) :
    safeCacheOperation cfg f op key value eff = (.ok .pyNone, eff) := by
  simp [safeCacheOperation, h]

/-- Collection-cache invalidation's loop never lets an exception escape. -/
theorem invalidateLoop_ok (cfg : RepoConfig) (f : CacheFaults)
    (keys : List String) (eff : Effects) :
    ∃ eff2, invalidateLoop cfg f keys eff = (.ok (), eff2) := by
  induction keys generalizing eff with
  | nil => exact ⟨eff, rfl⟩
  | cons k ks ih =>
    rw [invalidateLoop]
    by_cases hf : f.failDelete k
    · simp [cmDelete, hf]
    · simp only [cmDelete, hf, if_false]
      exact ih _

/-- Collection-cache invalidation never lets an exception escape. -/
theorem invalidateCollectionCaches_ok (cfg : RepoConfig) (f : CacheFaults)
    (eff : Effects) :
    ∃ eff2, invalidateCollectionCaches cfg f eff = (.ok (), eff2) := by
  unfold invalidateCollectionCaches
  by_cases hc : cfg.cacheEnabled = false
  · simp [hc]
  · simp only [hc, if_false]
    exact invalidateLoop_ok cfg f _ eff

/-- C1: every cache-store operation issued by the repository goes through
`_safe_cache_operation` (or the equally guarded collection invalidation),
which (a) never lets a cache-store failure escape, (b) skips the store
entirely when caching is disabled, (c) turns any injected store failure
into a logged warning, an unchanged store (no-op for writes, miss for
reads) and a `None` result, and (d, e) never aborts the surrounding
business operation: collection invalidation always returns normally, and
`get_entity_by_id` with a healthy Manager returns normally under any
cache fault assignment. -/
theorem spec_c1_cache_failure_policy :
    (∀ (cfg : RepoConfig) (f : CacheFaults) (op : CacheOp) (key : String)
       (value : Option CVal) (eff : Effects),
      ∃ r eff2, safeCacheOperation cfg f op key value eff = (.ok r, eff2)) ∧
    (∀ (cfg : RepoConfig) (f : CacheFaults) (op : CacheOp) (key : String)
       (value : Option CVal) (eff : Effects), cfg.cacheEnabled = false →
      safeCacheOperation cfg f op key value eff = (.ok .pyNone, eff)) ∧
    (∀ (cfg : RepoConfig) (f : CacheFaults) (op : CacheOp) (key : String)
       (value : Option CVal) (eff : Effects),
      cfg.cacheEnabled = true → f.faults op key = true →
      safeCacheOperation cfg f op key value eff =
        (.ok .pyNone,
         { store := eff.store,
           logs := eff.logs ++ [⟨.warning, cacheWarnMsg op key f.failMsg⟩],
           ops := eff.ops ++ [opTrace op key value] })) ∧
    (∀ (cfg : RepoConfig) (f : CacheFaults) (eff : Effects),
      ∃ eff2, invalidateCollectionCaches cfg f eff = (.ok (), eff2)) ∧
    (∀ (cfg : RepoConfig) (f : CacheFaults) (m : Manager) (objId : PyVal)
       (i : Int) (eff : Effects),
      validateId objId = .ok i → m.getByIdErr = Option.none →
      ∃ r eff2, getEntityById cfg f m objId eff = (.ok r, eff2)) := by
  refine ⟨safeCacheOperation_ok, safeCacheOperation_disabled, ?_, invalidateCollectionCaches_ok, ?_⟩
  · intro cfg f op key value eff hc hf
    unfold safeCacheOperation
    rw [if_neg (by simp [hc])]
    cases op with
    | get =>
      simp only [CacheFaults.faults] at hf
      simp [cmGet, hf, withLog, opTrace, cacheWarnMsg, Exc.msg]
    | set =>
      simp only [CacheFaults.faults] at hf
      simp [cmSet, hf, withLog, opTrace, cacheWarnMsg, Exc.msg]
    | delete =>
      simp only [CacheFaults.faults] at hf
      simp [cmDelete, hf, withLog, opTrace, cacheWarnMsg, Exc.msg]
    | getOrSet =>
      simp only [CacheFaults.faults] at hf
      simp [cmGetOrSet, hf, withLog, opTrace, cacheWarnMsg, Exc.msg]
  · intro cfg f m objId i eff hval herr
    simp only [getEntityById, hval]
    obtain ⟨r1, e1, hs1⟩ := safeCacheOperation_ok cfg f .get (getCacheKey cfg i "") Option.none eff
    rw [hs1]
    cases r1 with
    | val v => exact ⟨_, _, rfl⟩
    | pyNone =>
      simp only [managerGetById, herr]
      cases hfind : m.db.find? (fun e => e.id == i) with
      | none => exact ⟨_, _, rfl⟩
      | some inst =>
        obtain ⟨r2, e2, hs2⟩ :=
          safeCacheOperation_ok cfg f .set (getCacheKey cfg i "") (some (.ent inst)) e1
        dsimp only
        rw [hs2]
        exact ⟨_, _, rfl⟩
    | pyTrue =>
      simp only [managerGetById, herr]
      cases hfind : m.db.find? (fun e => e.id == i) with
      | none => exact ⟨_, _, rfl⟩
      | some inst =>
        obtain ⟨r2, e2, hs2⟩ :=
          safeCacheOperation_ok cfg f .set (getCacheKey cfg i "") (some (.ent inst)) e1
        dsimp only
        rw [hs2]
        exact ⟨_, _, rfl⟩

/-- Witness for C1: a failing cache get is logged as a warning and
treated as a miss, and `get_entity_by_id` still succeeds against a
healthy Manager with every cache call failing. -/
theorem spec_c1_witness :
    safeCacheOperation cfgOn allFaults .get "app.model.1" Option.none eff0 =
      (.ok .pyNone,
       { store := [],
         logs := [⟨.warning, cacheWarnMsg .get "app.model.1" "cache backend down"⟩],
         ops := [.get "app.model.1"] }) ∧
    safeCacheOperation cfgOff allFaults .set "k" (some (.cnt 1)) eff0 = (.ok .pyNone, eff0) ∧
    (∃ r eff2, getEntityById cfgOn allFaults mC5 (.int 1) eff0 = (.ok r, eff2)) := by
  refine ⟨?_, ?_, ?_⟩
  · have h := spec_c1_cache_failure_policy.2.2.1 cfgOn allFaults .get "app.model.1"
      Option.none eff0 rfl rfl
    simpa [eff0, allFaults] using h
  · exact spec_c1_cache_failure_policy.2.1 cfgOff allFaults .set "k" (some (.cnt 1)) eff0 rfl
  · exact spec_c1_cache_failure_policy.2.2.2.2 cfgOn allFaults mC5 (.int 1) 1 eff0 (by decide) rfl

/-- Unfolding of string concatenation to character lists. -/
theorem string_data_concat (s t : String) : (s ++ t).data = s.data ++ t.data := by
  cases s
  cases t
  rfl

/-- A failing or missing cache get behaves as a miss: `None` result,
store untouched, at most one warning line. -/
theorem safeGet_miss (cfg : RepoConfig) (f : CacheFaults) (key : String)
    (eff : Effects) (h : storeLookup eff.store key = Option.none) :
    ∃ eff2, safeCacheOperation cfg f .get key Option.none eff = (.ok .pyNone, eff2) ∧
      eff2.store = eff.store ∧
      (eff2.logs = eff.logs ∨
        eff2.logs = eff.logs ++ [⟨.warning, cacheWarnMsg .get key f.failMsg⟩]) := by
  unfold safeCacheOperation
  by_cases hc : cfg.cacheEnabled = false
  · simp [hc]
  · simp only [hc, if_false]
    by_cases hf : f.failGet key
    · simp [cmGet, hf, withLog, Exc.msg]
    · simp [cmGet, hf, h, cacheRetOfOpt]

/-- C2: with a valid id and a cache miss, a non-`ValueError` Manager
failure in `get_entity_by_id` produces exactly one error-level log line —
the standard message embedding the sanitized id and the underlying
message — and a re-raised `ValueError` wrapping that message; a
validation error propagates unchanged with no logging at all, and a
`ValueError` raised by the Manager also propagates unchanged with no
error-level log line. -/
theorem spec_c2_get_by_id_failure :
    (∀ (cfg : RepoConfig) (f : CacheFaults) (m : Manager) (objId : PyVal)
       (i : Int) (s : String) (eff : Effects),
      validateId objId = .ok i →
      m.getByIdErr = some (.other s) →
      storeLookup eff.store (getCacheKey cfg i "") = Option.none →
      (getEntityById cfg f m objId eff).1 =
        .error (.valueError ("Failed to fetch entity by ID: " ++ s)) ∧
      ∃ d, (getEntityById cfg f m objId eff).2.logs = eff.logs ++ d ∧
        d.filter (fun l => l.level == LogLevel.error) =
          [⟨.error, gbiErrMsg cfg objId s⟩] ∧
        (pyFormat (sanitizePy objId)).data <:+: (gbiErrMsg cfg objId s).data ∧
        s.data <:+: (gbiErrMsg cfg objId s).data) ∧
    (∀ (cfg : RepoConfig) (f : CacheFaults) (m : Manager) (objId : PyVal)
       (ex : Exc) (eff : Effects),
      validateId objId = .error ex →
      getEntityById cfg f m objId eff = (.error ex, eff)) ∧
    (∀ (cfg : RepoConfig) (f : CacheFaults) (m : Manager) (objId : PyVal)
       (i : Int) (s : String) (eff : Effects),
      validateId objId = .ok i →
      m.getByIdErr = some (.valueError s) →
      storeLookup eff.store (getCacheKey cfg i "") = Option.none →
      (getEntityById cfg f m objId eff).1 = .error (.valueError s) ∧
      ∃ d, (getEntityById cfg f m objId eff).2.logs = eff.logs ++ d ∧
        d.filter (fun l => l.level == LogLevel.error) = []) := by
  refine ⟨?_, ?_, ?_⟩
  · intro cfg f m objId i s eff hval herr hmiss
    obtain ⟨e1, hs1, hst, hlg⟩ := safeGet_miss cfg f (getCacheKey cfg i "") eff hmiss
    have hrun : getEntityById cfg f m objId eff =
        (.error (.valueError ("Failed to fetch entity by ID: " ++ s)),
         withLog e1 .error (gbiErrMsg cfg objId s)) := by
      simp only [getEntityById, hval]
      rw [hs1]
      simp only [managerGetById, herr, gbiHandle]
    rw [hrun]
    refine ⟨rfl, ?_⟩
    rcases hlg with hl | hl
    · refine ⟨[⟨.error, gbiErrMsg cfg objId s⟩], ?_, ?_, ?_, ?_⟩
      · simp [withLog, hl]
      · rfl
      · refine ⟨("Failed to fetch " ++ cfg.modelName ++ " by ID=").data, (": " ++ s).data, ?_⟩
        simp [gbiErrMsg, string_data_concat, List.append_assoc]
      · refine ⟨("Failed to fetch " ++ cfg.modelName ++ " by ID=" ++
          pyFormat (sanitizePy objId) ++ ": ").data, [], ?_⟩
        simp [gbiErrMsg, string_data_concat, List.append_assoc]
    · refine ⟨[⟨.warning, cacheWarnMsg .get (getCacheKey cfg i "") f.failMsg⟩,
               ⟨.error, gbiErrMsg cfg objId s⟩], ?_, ?_, ?_, ?_⟩
      · simp [withLog, hl]
      · rfl
      · refine ⟨("Failed to fetch " ++ cfg.modelName ++ " by ID=").data, (": " ++ s).data, ?_⟩
        simp [gbiErrMsg, string_data_concat, List.append_assoc]
      · refine ⟨("Failed to fetch " ++ cfg.modelName ++ " by ID=" ++
          pyFormat (sanitizePy objId) ++ ": ").data, [], ?_⟩
        simp [gbiErrMsg, string_data_concat, List.append_assoc]
  · intro cfg f m objId ex eff hval
    simp [getEntityById, hval]
  · intro cfg f m objId i s eff hval herr hmiss
    obtain ⟨e1, hs1, hst, hlg⟩ := safeGet_miss cfg f (getCacheKey cfg i "") eff hmiss
    have hrun : getEntityById cfg f m objId eff = (.error (.valueError s), e1) := by
      simp only [getEntityById, hval]
      rw [hs1]
      simp only [managerGetById, herr, gbiHandle]
    rw [hrun]
    refine ⟨rfl, ?_⟩
    rcases hlg with hl | hl
    · exact ⟨[], by simp [hl], rfl⟩
    · exact ⟨[⟨.warning, cacheWarnMsg .get (getCacheKey cfg i "") f.failMsg⟩],
        by simp [hl], by rfl⟩

/-- Witness for C2: a concrete Manager failure yields the wrapped error
and exactly one error-level log line. -/
theorem spec_c2_witness :
    (getEntityById cfgOff noFaults mBoom (.int 7) eff0).1 =
      .error (.valueError "Failed to fetch entity by ID: Database connection failed") ∧
    ((getEntityById cfgOff noFaults mBoom (.int 7) eff0).2.logs).filter
      (fun l => l.level == LogLevel.error) =
      [⟨.error, gbiErrMsg cfgOff (.int 7) "Database connection failed"⟩] := by
  have h := spec_c2_get_by_id_failure.1 cfgOff noFaults mBoom (.int 7) 7
    "Database connection failed" eff0 (by decide) rfl rfl
  obtain ⟨h1, d, hd, hfil, _, _⟩ := h
  refine ⟨h1, ?_⟩
  rw [hd]
  simpa [eff0] using hfil

/-- C10: when the Manager reports the entity absent, `update_entity` and
`delete_entity` return the not-found result after only a warning log; the
cache store, and the trace of cache-store invocations, are left entirely
unchanged — no entity key and no collection key is deleted. -/
theorem spec_c10_notfound_leaves_cache :
    (∀ (cfg : RepoConfig) (f : CacheFaults) (m : Manager) (objId : PyVal)
       (i : Int) (kw : Option (List (String × PyVal)))
       (ck : List (String × PyVal)) (eff : Effects),
      validateId objId = .ok i →
      validateKwargs kw "update" = .ok ck →
      m.getByIdErr = Option.none →
      m.db.find? (fun e => e.id == i) = Option.none →
      updateEntity cfg f m objId kw eff =
        (.ok Option.none,
         withLog eff .warning
           ("Update failed: " ++ cfg.modelName ++ " with ID " ++ toString i ++
            " not found")) ∧
      (updateEntity cfg f m objId kw eff).2.store = eff.store ∧
      (updateEntity cfg f m objId kw eff).2.ops = eff.ops) ∧
    (∀ (cfg : RepoConfig) (f : CacheFaults) (m : Manager) (objId : PyVal)
       (i : Int) (eff : Effects),
      validateId objId = .ok i →
      m.getByIdErr = Option.none →
      m.db.find? (fun e => e.id == i) = Option.none →
      deleteEntity cfg f m objId eff =
        (.ok Option.none,
         withLog eff .warning
           ("Delete failed: " ++ cfg.modelName ++ " with ID " ++ toString i ++
            " not found")) ∧
      (deleteEntity cfg f m objId eff).2.store = eff.store ∧
      (deleteEntity cfg f m objId eff).2.ops = eff.ops) := by
  constructor
  · intro cfg f m objId i kw ck eff hval hkw herr hfind
    have hrun : updateEntity cfg f m objId kw eff =
        (.ok Option.none,
         withLog eff .warning
           ("Update failed: " ++ cfg.modelName ++ " with ID " ++ toString i ++
            " not found")) := by
      simp only [updateEntity, hval, hkw, managerGetById, herr, hfind]
    exact ⟨hrun, by simp [hrun, withLog], by simp [hrun, withLog]⟩
  · intro cfg f m objId i eff hval herr hfind
    have hrun : deleteEntity cfg f m objId eff =
        (.ok Option.none,
         withLog eff .warning
           ("Delete failed: " ++ cfg.modelName ++ " with ID " ++ toString i ++
            " not found")) := by
      simp only [deleteEntity, hval, managerGetById, herr, hfind]
    exact ⟨hrun, by simp [hrun, withLog], by simp [hrun, withLog]⟩

/-- Witness for C10 at a concrete absent id (2) over a one-entity store,
with caching enabled and a populated cache store. -/
theorem spec_c10_witness :
    (updateEntity cfgOn noFaults mC5 (.int 2) (some [("name", .str "x")]) effC5).2.store =
      effC5.store ∧
    (updateEntity cfgOn noFaults mC5 (.int 2) (some [("name", .str "x")]) effC5).1 =
      .ok Option.none ∧
    (deleteEntity cfgOn noFaults mC5 (.int 2) effC5).2.store = effC5.store ∧
    (deleteEntity cfgOn noFaults mC5 (.int 2) effC5).1 = .ok Option.none := by
  have hu := spec_c10_notfound_leaves_cache.1 cfgOn noFaults mC5 (.int 2) 2
    (some [("name", .str "x")]) [("name", .str "x")] effC5 (by decide) (by decide) rfl (by decide)
  have hd := spec_c10_notfound_leaves_cache.2 cfgOn noFaults mC5 (.int 2) 2 effC5
    (by decide) rfl (by decide)
  exact ⟨hu.2.1, by rw [hu.1], hd.2.1, by rw [hd.1]⟩

/-- C6: `bulk_delete_entities` with a valid instances list uses that list
only for validation — two different valid lists give identical results
and effects — and with no filters the deletion is driven by the empty
filter set alone: every entity in the store is deleted, regardless of the
instances supplied. -/
theorem spec_c6_bulk_delete_instances_unused :
    (∀ (cfg : RepoConfig) (f : CacheFaults) (m : Manager)
       (fs : List (String × PyVal)) (l1 l2 : List Inst) (eff : Effects),
      validateInstancesList (some l1) "bulk delete" = .ok l1 →
      validateInstancesList (some l2) "bulk delete" = .ok l2 →
      bulkDeleteEntities cfg f m (some l1) fs eff =
        bulkDeleteEntities cfg f m (some l2) fs eff) ∧
    (∀ (cfg : RepoConfig) (f : CacheFaults) (m : Manager) (l : List Inst)
       (eff : Effects),
      validateInstancesList (some l) "bulk delete" = .ok l →
      m.bulkDeleteErr = Option.none →
      ∃ eff2, bulkDeleteEntities cfg f m (some l) [] eff =
        (.ok (m.db, m.db.length), eff2)) := by
  constructor
  · intro cfg f m fs l1 l2 eff h1 h2
    simp only [bulkDeleteEntities, h1, h2]
  · intro cfg f m l eff hv herr
    simp only [bulkDeleteEntities, hv, bulkDeleteCore, managerBulkDelete, herr,
      matchesFilters, List.all_nil, List.filter_true]
    obtain ⟨eff2, hicc⟩ := invalidateCollectionCaches_ok cfg f
      (withLog eff .debug
        ("Starting bulk delete of " ++ cfg.modelName ++ " instances (filters: " ++
         fmtKwargs (sanitizeKwargs []) ++ ")"))
    rw [hicc]
    exact ⟨_, rfl⟩

/-- Witness for C6: a one-element instances list does not restrict the
bulk delete — the whole three-entity store is deleted — and swapping in a
different valid instances list changes nothing. -/
theorem spec_c6_witness :
    bulkDeleteEntities cfgOff noFaults m3 (some [.entity { id := 1, data := 10 }]) [] eff0 =
      bulkDeleteEntities cfgOff noFaults m3
        (some [.entity { id := 2, data := 20 }, .entity { id := 3, data := 30 }]) [] eff0 ∧
    (∃ eff2, bulkDeleteEntities cfgOff noFaults m3
        (some [.entity { id := 1, data := 10 }]) [] eff0 =
      (.ok (m3.db, m3.db.length), eff2)) ∧
    m3.db.length = 3 := by
  refine ⟨?_, ?_, by decide⟩
  · exact spec_c6_bulk_delete_instances_unused.1 cfgOff noFaults m3 []
      [.entity { id := 1, data := 10 }]
      [.entity { id := 2, data := 20 }, .entity { id := 3, data := 30 }] eff0
      (by decide) (by decide)
  · exact spec_c6_bulk_delete_instances_unused.2 cfgOff noFaults m3
      [.entity { id := 1, data := 10 }] eff0 (by decide) rfl

/-- C4: every successful pagination result satisfies the invariants
`total_pages = ceil(total_count / per_page)` (stated both as the code's
`(tc + pp - 1) / pp` and as the least `n` with `tc ≤ n * pp`),
`has_next = page < total_pages` and `has_previous = page > 1`; the
95/20 and empty-store scenarios come out as specified; out-of-bounds
pagination parameters raise a validation error and leave the effects
untouched. -/
theorem spec_c4_pagination :
    (∀ (cfg : RepoConfig) (f : CacheFaults) (m : Manager)
       (fs : List (String × PyVal)) (page perPage : Int) (eff : Effects)
       (r : PageResult) (eff2 : Effects),
      1 ≤ page → 1 ≤ perPage → perPage ≤ 1000 →
      getPaginatedEntities cfg f m page perPage fs eff = (.ok r, eff2) →
      r.page = page.toNat ∧
      r.per_page = perPage.toNat ∧
      r.total_pages = (r.total_count + r.per_page - 1) / r.per_page ∧
      r.total_count ≤ r.total_pages * r.per_page ∧
      (∀ k : Nat, r.total_count ≤ k * r.per_page → r.total_pages ≤ k) ∧
      r.has_next = decide (r.page < r.total_pages) ∧
      r.has_previous = decide (1 < r.page)) ∧
    ((getPaginatedEntities cfgOff noFaults m95 5 20 [] eff0).1 =
      .ok { entities := (db95.drop 80).take 20, total_count := 95, page := 5,
            per_page := 20, total_pages := 5, has_next := false,
            has_previous := true }) ∧
    ((getPaginatedEntities cfgOff noFaults mEmpty 1 20 [] eff0).1 =
      .ok { entities := [], total_count := 0, page := 1, per_page := 20,
            total_pages := 0, has_next := false, has_previous := false }) ∧
    (∀ (cfg : RepoConfig) (f : CacheFaults) (m : Manager)
       (fs : List (String × PyVal)) (page perPage : Int) (eff : Effects),
      (page < 1 ∨ perPage < 1 ∨ perPage > 1000) →
      ∃ s, getPaginatedEntities cfg f m page perPage fs eff =
        (.error (.valueError s), eff)) := by
  refine ⟨?_, by decide, by decide, ?_⟩
  · intro cfg f m fs page perPage eff r eff2 hp hpp hpp2 h
    have hppn : 0 < perPage.toNat := by omega
    have hinv : ∀ (tc : Nat) (es : List Entity),
        r = { entities := es, total_count := tc, page := page.toNat,
              per_page := perPage.toNat,
              total_pages := (tc + perPage.toNat - 1) / perPage.toNat,
              has_next := decide (page.toNat < (tc + perPage.toNat - 1) / perPage.toNat),
              has_previous := decide (page.toNat > 1) } →
        r.page = page.toNat ∧
        r.per_page = perPage.toNat ∧
        r.total_pages = (r.total_count + r.per_page - 1) / r.per_page ∧
        r.total_count ≤ r.total_pages * r.per_page ∧
        (∀ k : Nat, r.total_count ≤ k * r.per_page → r.total_pages ≤ k) ∧
        r.has_next = decide (r.page < r.total_pages) ∧
        r.has_previous = decide (1 < r.page) := by
      intro tc es hr
      subst hr
      refine ⟨rfl, rfl, rfl, ?_, ?_, rfl, rfl⟩
      · have hc := (ceilDiv_le_iff_le_smul hppn).mp
          (le_of_eq (Nat.ceilDiv_eq_add_pred_div tc perPage.toNat))
        rw [smul_eq_mul] at hc
        calc tc ≤ perPage.toNat * ((tc + perPage.toNat - 1) / perPage.toNat) := hc
          _ = ((tc + perPage.toNat - 1) / perPage.toNat) * perPage.toNat := Nat.mul_comm _ _
      · intro k hk
        have hk2 : tc ≤ perPage.toNat • k := by
          rw [smul_eq_mul, Nat.mul_comm]
          exact hk
        have := (ceilDiv_le_iff_le_smul hppn).mpr hk2
        rwa [Nat.ceilDiv_eq_add_pred_div] at this
    simp only [getPaginatedEntities] at h
    rw [if_neg (by omega), if_neg (by omega), if_neg (by omega)] at h
    rcases hc : countEntities cfg f m fs eff with ⟨cres, e1⟩
    rw [hc] at h
    cases cres with
    | error ex =>
      exfalso
      cases ex <;> simp [pagHandle, opHandle] at h
    | ok cval =>
      cases cval with
      | ent e =>
        exfalso
        simp [pagHandle, opHandle] at h
      | ents l =>
        exfalso
        simp [pagHandle, opHandle] at h
      | cnt tc =>
        dsimp only at h
        by_cases hfs : fs.isEmpty
        · rw [if_pos hfs] at h
          rcases hf : fetchAllEntities cfg m (some perPage.toNat)
            ((page.toNat - 1) * perPage.toNat) e1 with ⟨fres, e2⟩
          rw [hf] at h
          cases fres with
          | error ex =>
            exfalso
            cases ex <;> simp [pagHandle, opHandle] at h
          | ok es =>
            dsimp only at h
            have hr := congrArg Prod.fst h
            dsimp at hr
            injection hr with hr
            exact hinv tc es hr.symm
        · rw [if_neg hfs] at h
          rcases hflt : managerFilter m fs with fres
          rw [hflt] at h
          cases fres with
          | error ex =>
            exfalso
            cases ex <;> simp [pagHandle, opHandle] at h
          | ok l =>
            dsimp only at h
            have hr := congrArg Prod.fst h
            dsimp at hr
            injection hr with hr
            exact hinv tc _ hr.symm
  · intro cfg f m fs page perPage eff hbad
    simp only [getPaginatedEntities]
    by_cases h1 : page < 1
    · rw [if_pos h1]
      exact ⟨_, rfl⟩
    · rw [if_neg h1]
      by_cases h2 : perPage < 1
      · rw [if_pos h2]
        exact ⟨_, rfl⟩
      · rw [if_neg h2]
        have h3 : perPage > 1000 := by omega
        rw [if_pos h3]
        exact ⟨_, rfl⟩

/-- Witness for C4: the invariants hold on the concrete 95-entity run,
and page 0 raises. -/
theorem spec_c4_witness :
    (∃ r eff2, getPaginatedEntities cfgOff noFaults m95 5 20 [] eff0 = (.ok r, eff2) ∧
      r.total_pages = (r.total_count + r.per_page - 1) / r.per_page ∧
      r.has_next = decide (r.page < r.total_pages) ∧
      r.has_previous = decide (1 < r.page)) ∧
    (∃ s, getPaginatedEntities cfgOff noFaults m95 0 20 [] eff0 =
      (.error (.valueError s), eff0)) := by
  constructor
  · have hfst := spec_c4_pagination.2.1
    rcases hpair : getPaginatedEntities cfgOff noFaults m95 5 20 [] eff0 with ⟨res, e2⟩
    rw [hpair] at hfst
    simp only at hfst
    subst hfst
    have h1 := spec_c4_pagination.1 cfgOff noFaults m95 [] 5 20 eff0 _ e2
      (by decide) (by decide) (by decide) hpair
    exact ⟨_, e2, rfl, h1.2.2.1, h1.2.2.2.2.2.1, h1.2.2.2.2.2.2⟩
  · exact spec_c4_pagination.2.2.2 cfgOff noFaults m95 [] 0 20 eff0 (Or.inl (by decide))

/-- Character-list equality determines string equality. -/
theorem string_data_inj {s t : String} (h : s.data = t.data) : s = t := by
  cases s
  cases t
  exact congrArg String.mk h

/-- Unfolding of a lookup at a cons cell. -/
theorem storeLookup_cons (a : String × CVal) (t : List (String × CVal)) (k : String) :
    storeLookup (a :: t) k = if a.1 == k then some a.2 else storeLookup t k := by
  unfold storeLookup
  cases hb : (a.1 == k) <;> simp [List.find?, hb]

/-- Unfolding of an erase at a cons cell. -/
theorem storeErase_cons (a : String × CVal) (t : List (String × CVal)) (k : String) :
    storeErase (a :: t) k = if a.1 = k then storeErase t k else a :: storeErase t k := by
  unfold storeErase
  by_cases hb : a.1 = k <;> simp [List.filter_cons, hb]

/-- Erasing a key makes its lookup miss. -/
theorem storeLookup_erase_self (st : List (String × CVal)) (k : String) :
    storeLookup (storeErase st k) k = Option.none := by
  induction st with
  | nil => rfl
  | cons a t ih =>
    rw [storeErase_cons]
    by_cases hb : a.1 = k
    · rw [if_pos hb]
      exact ih
    · rw [if_neg hb, storeLookup_cons, if_neg (by simpa using hb)]
      exact ih

/-- Erasing one key leaves other keys' lookups unchanged. -/
theorem storeLookup_erase_ne (st : List (String × CVal)) (k k2 : String)
    (h : k ≠ k2) : storeLookup (storeErase st k2) k = storeLookup st k := by
  induction st with
  | nil => rfl
  | cons a t ih =>
    rw [storeErase_cons]
    by_cases hb : a.1 = k2
    · have hne : ¬ ((a.1 == k) = true) := by
        simp only [beq_iff_eq]
        intro he
        exact h (by rw [← he, hb])
      rw [if_pos hb, ih, storeLookup_cons, if_neg hne]
    · rw [if_neg hb, storeLookup_cons, storeLookup_cons]
      by_cases hk : (a.1 == k) = true
      · rw [if_pos hk, if_pos hk]
      · rw [if_neg hk, if_neg hk]
        exact ih

/-- Erasing an absent key changes nothing. -/
theorem storeErase_of_lookup_none (st : List (String × CVal)) (k : String)
    (h : storeLookup st k = Option.none) : storeErase st k = st := by
  unfold storeLookup at h
  have hfind : st.find? (fun p => p.1 == k) = Option.none := by
    cases hf : st.find? (fun p => p.1 == k) with
    | none => rfl
    | some p =>
      rw [hf] at h
      simp at h
  have hall := List.find?_eq_none.mp hfind
  unfold storeErase
  rw [List.filter_eq_self]
  intro a ha
  simpa using hall a ha

/-- Collection keys with different suffixes are different strings. -/
theorem collKey_ne (cfg : RepoConfig) (s1 s2 : String) (h : s1.data ≠ s2.data) :
    getCollectionCacheKey cfg s1 ≠ getCollectionCacheKey cfg s2 := by
  intro he
  apply h
  have hd := congrArg String.data he
  unfold getCollectionCacheKey at hd
  rw [string_data_concat, string_data_concat] at hd
  exact List.append_cancel_left hd

/-- Store contents after a no-id `clear_cache` with a healthy cache
store: exactly the three collection keys are erased. -/
theorem clearCache_none_store (cfg : RepoConfig) (eff : Effects)
    (hc : cfg.cacheEnabled = true) :
    (clearCache cfg noFaults Option.none eff).2.store =
      storeErase (storeErase (storeErase eff.store
        (getCollectionCacheKey cfg "all")) (getCollectionCacheKey cfg "count"))
        (getCollectionCacheKey cfg "paginated") := by
  simp [clearCache, invalidateCollectionCaches, hc, collectionKeys,
    invalidateLoop, cmDelete, noFaults, withLog]

/-- A `get_all` with no limit whose collection key misses fetches the
Manager's entities. -/
theorem getAll_nolimit_miss (cfg : RepoConfig) (m : Manager) (eff : Effects)
    (hc : cfg.cacheEnabled = true)
    (hmiss : storeLookup eff.store (getCollectionCacheKey cfg "all") = Option.none)
    (herr : m.getAllErr = Option.none) :
    (getAllEntities cfg noFaults m Option.none 0 eff).1 = .ok (.ents m.db) := by
  simp only [getAllEntities, getAllSuffix]
  rw [if_neg (by decide), if_pos hc]
  simp only [safeCacheOperation, hc, Bool.true_eq_false, if_false, cmGet, noFaults,
    Bool.false_eq_true, hmiss, cacheRetOfOpt, getAllFetch, fetchAllEntities,
    managerGetAll, herr, cmSet]
  simp [sliceAll_none_eq]

/-- Counterexample for C5 as stated: with caching enabled, after
`clear_cache()` the collection cache still holds the
limit/offset-specific `all`-family key, and the next `get_all(limit=1)`
is served from the cache with a value that differs from what the Manager
fetch would return — it does not miss. -/
theorem spec_c5_counterexample :
    storeLookup (clearCache cfgOn noFaults Option.none effC5).2.store
      "app.model.all.limit_1.offset_0" = some (.ents [{ id := 2, data := 7 }]) ∧
    (getAllEntities cfgOn noFaults mC5 (some 1) 0
      (clearCache cfgOn noFaults Option.none effC5).2).1 =
      .ok (.ents [{ id := 2, data := 7 }]) ∧
    (CVal.ents [{ id := 2, data := 7 }]) ≠ .ents (sliceAll mC5.db (some 1) 0) := by
  exact ⟨by decide, by decide, by decide⟩

/-- C5 (amended): with caching enabled and a healthy cache store,
`clear_cache()` with no id deletes exactly the three literal collection
keys (`all`, `count`, `paginated`) — so those lookups miss afterwards —
repeating it leaves the store unchanged (idempotence), and a subsequent
`get_all` with no limit misses the cache and returns the Manager's
entities.  (`get_all` calls carrying a limit use limit/offset-specific
keys that `clear_cache` does not touch; see the counterexample.) -/
theorem spec_c5_amended_clear_cache :
    ∀ (cfg : RepoConfig) (m : Manager) (eff : Effects),
      cfg.cacheEnabled = true →
      (∀ k ∈ collectionKeys cfg,
        storeLookup (clearCache cfg noFaults Option.none eff).2.store k = Option.none) ∧
      ((clearCache cfg noFaults Option.none
          (clearCache cfg noFaults Option.none eff).2).2.store =
        (clearCache cfg noFaults Option.none eff).2.store) ∧
      (m.getAllErr = Option.none →
        (getAllEntities cfg noFaults m Option.none 0
          (clearCache cfg noFaults Option.none eff).2).1 = .ok (.ents m.db)) := by
  intro cfg m eff hc
  have hstore := clearCache_none_store cfg eff hc
  have hne12 := collKey_ne cfg "all" "count" (by decide)
  have hne13 := collKey_ne cfg "all" "paginated" (by decide)
  have hne23 := collKey_ne cfg "count" "paginated" (by decide)
  have h1 : storeLookup (clearCache cfg noFaults Option.none eff).2.store
      (getCollectionCacheKey cfg "all") = Option.none := by
    rw [hstore, storeLookup_erase_ne _ _ _ hne13, storeLookup_erase_ne _ _ _ hne12,
      storeLookup_erase_self]
  have h2 : storeLookup (clearCache cfg noFaults Option.none eff).2.store
      (getCollectionCacheKey cfg "count") = Option.none := by
    rw [hstore, storeLookup_erase_ne _ _ _ hne23, storeLookup_erase_self]
  have h3 : storeLookup (clearCache cfg noFaults Option.none eff).2.store
      (getCollectionCacheKey cfg "paginated") = Option.none := by
    rw [hstore, storeLookup_erase_self]
  refine ⟨?_, ?_, ?_⟩
  · intro k hk
    simp only [collectionKeys, List.mem_cons, List.not_mem_nil, or_false] at hk
    rcases hk with rfl | rfl | rfl
    · exact h1
    · exact h2
    · exact h3
  · rw [clearCache_none_store cfg _ hc, storeErase_of_lookup_none _ _ h1,
      storeErase_of_lookup_none _ _ h2, storeErase_of_lookup_none _ _ h3]
  · intro herr
    exact getAll_nolimit_miss cfg m _ hc h1 herr

/-- Witness for the amended C5 at a concrete enabled configuration. -/
theorem spec_c5_witness :
    storeLookup (clearCache cfgOn noFaults Option.none effC5).2.store
      (getCollectionCacheKey cfgOn "all") = Option.none ∧
    ((clearCache cfgOn noFaults Option.none
        (clearCache cfgOn noFaults Option.none effC5).2).2.store =
      (clearCache cfgOn noFaults Option.none effC5).2.store) ∧
    (getAllEntities cfgOn noFaults mC5 Option.none 0
      (clearCache cfgOn noFaults Option.none effC5).2).1 = .ok (.ents mC5.db) := by
  have h := spec_c5_amended_clear_cache cfgOn mC5 effC5 rfl
  exact ⟨h.1 (getCollectionCacheKey cfgOn "all") (by decide), h.2.1, h.2.2 rfl⟩

/-- Collection invalidation is a complete no-op when caching is
disabled. -/
theorem invalidateCollectionCaches_disabled (cfg : RepoConfig) (f : CacheFaults)
    (eff : Effects) (hc : cfg.cacheEnabled = false) :
    invalidateCollectionCaches cfg f eff = (.ok (), eff) := by
  simp [invalidateCollectionCaches, hc]

/-- Shape of a fetch: the effects only gain one log line, independent of
the cache store. -/
theorem fetchAllEntities_shape (cfg : RepoConfig) (m : Manager)
    (limit : Option Nat) (offset : Nat) :
    ∃ res lvl msg, ∀ eff, fetchAllEntities cfg m limit offset eff =
      (res, withLog eff lvl msg) := by
  cases herr : m.getAllErr with
  | some ex =>
    exact ⟨.error ex, .error,
      "Failed to fetch " ++ cfg.modelName ++ " instances from DB: " ++ ex.msg,
      fun eff => by simp [fetchAllEntities, managerGetAll, herr]⟩
  | none =>
    exact ⟨.ok (sliceAll m.db limit offset), .debug,
      "Successfully fetched " ++ toString (sliceAll m.db limit offset).length ++
        " " ++ cfg.modelName ++ " instances",
      fun eff => by simp [fetchAllEntities, managerGetAll, herr]⟩

/-- With caching disabled, `get_entity_by_id` never touches the cache
store: its result and its appended log lines are independent of the
store, which is returned unchanged along with the invocation trace. -/
theorem getEntityById_disabled (cfg : RepoConfig) (f : CacheFaults) (m : Manager)
    (objId : PyVal) (L : List LogEntry) (O : List StoreOp)
    (hc : cfg.cacheEnabled = false) :
    ∃ r d, ∀ s, getEntityById cfg f m objId ⟨s, L, O⟩ = (r, ⟨s, L ++ d, O⟩) := by
  cases hval : validateId objId with
  | error ex =>
    exact ⟨.error ex, [], fun s => by simp [getEntityById, hval]⟩
  | ok i =>
    cases herr : m.getByIdErr with
    | some ex =>
      cases ex with
      | valueError msg =>
        refine ⟨.error (.valueError msg), [], fun s => ?_⟩
        simp [getEntityById, hval, safeCacheOperation_disabled _ _ _ _ _ _ hc,
          managerGetById, herr, gbiHandle]
      | other msg =>
        refine ⟨.error (.valueError ("Failed to fetch entity by ID: " ++ msg)),
          [⟨.error, gbiErrMsg cfg objId msg⟩], fun s => ?_⟩
        simp [getEntityById, hval, safeCacheOperation_disabled _ _ _ _ _ _ hc,
          managerGetById, herr, gbiHandle, withLog]
    | none =>
      cases hfind : m.db.find? (fun e => e.id == i) with
      | none =>
        refine ⟨.ok Option.none,
          [⟨.debug, cfg.modelName ++ " with ID=" ++ toString i ++ " not found"⟩],
          fun s => ?_⟩
        simp [getEntityById, hval, safeCacheOperation_disabled _ _ _ _ _ _ hc,
          managerGetById, herr, hfind, withLog]
      | some inst =>
        refine ⟨.ok (some (.ent inst)),
          [⟨.debug, "Fetched and cached " ++ cfg.modelName ++ " ID=" ++ toString i⟩],
          fun s => ?_⟩
        simp [getEntityById, hval, safeCacheOperation_disabled _ _ _ _ _ _ hc,
          managerGetById, herr, hfind, withLog]

/-- With caching disabled, the fetch-and-cache branch of `get_all` leaves
the store and invocation trace unchanged. -/
theorem getAllFetch_disabled (cfg : RepoConfig) (f : CacheFaults) (m : Manager)
    (limit : Option Int) (offset : Int) (key : String)
    (L : List LogEntry) (O : List StoreOp) (hc : cfg.cacheEnabled = false) :
    ∃ r d, ∀ s, getAllFetch cfg f m limit offset key ⟨s, L, O⟩ = (r, ⟨s, L ++ d, O⟩) := by
  obtain ⟨res, lvl, msg, hfetch⟩ :=
    fetchAllEntities_shape cfg m (limit.map Int.toNat) offset.toNat
  cases res with
  | error ex =>
    cases ex with
    | valueError msg2 =>
      refine ⟨.error (.valueError msg2), [⟨lvl, msg⟩], fun s => ?_⟩
      simp [getAllFetch, hfetch, gaeHandle, opHandle, withLog]
    | other msg2 =>
      refine ⟨.error (.valueError ("Failed to fetch instances: " ++ msg2)),
        [⟨lvl, msg⟩,
         ⟨.error, "Failed to fetch " ++ cfg.modelName ++ " instances: " ++ msg2⟩],
        fun s => ?_⟩
      simp [getAllFetch, hfetch, gaeHandle, opHandle, withLog]
  | ok entities =>
    refine ⟨.ok (.ents entities), [⟨lvl, msg⟩], fun s => ?_⟩
    simp [getAllFetch, hfetch, safeCacheOperation_disabled _ _ _ _ _ _ hc, withLog]

/-- With caching disabled, `get_all_entities` never touches the cache
store. -/
theorem getAllEntities_disabled (cfg : RepoConfig) (f : CacheFaults) (m : Manager)
    (limit : Option Int) (offset : Int) (L : List LogEntry) (O : List StoreOp)
    (hc : cfg.cacheEnabled = false) :
    ∃ r d, ∀ s, getAllEntities cfg f m limit offset ⟨s, L, O⟩ = (r, ⟨s, L ++ d, O⟩) := by
  have hcb : ¬ (cfg.cacheEnabled = true) := by simp [hc]
  cases limit with
  | some l =>
    by_cases h1 : l ≤ 0
    · exact ⟨.error (.valueError ("Limit must be a positive integer, got " ++ toString l)),
        [], fun s => by simp [getAllEntities, h1]⟩
    · by_cases h2 : offset < 0
      · exact ⟨.error (.valueError ("Offset must be a non-negative integer, got " ++ toString offset)),
          [], fun s => by simp [getAllEntities, h1, h2]⟩
      · obtain ⟨r, d, hf⟩ := getAllFetch_disabled cfg f m (some l) offset
          (getCollectionCacheKey cfg (getAllSuffix (some l) offset)) L O hc
        refine ⟨r, d, fun s => ?_⟩
        simp only [getAllEntities, h1, if_false, h2, hcb]
        exact hf s
  | none =>
    by_cases h2 : offset < 0
    · exact ⟨.error (.valueError ("Offset must be a non-negative integer, got " ++ toString offset)),
        [], fun s => by simp [getAllEntities, h2]⟩
    · obtain ⟨r, d, hf⟩ := getAllFetch_disabled cfg f m Option.none offset
        (getCollectionCacheKey cfg (getAllSuffix Option.none offset)) L O hc
      refine ⟨r, d, fun s => ?_⟩
      simp only [getAllEntities, h2, if_false, hcb]
      exact hf s

/-- With caching disabled, `count_entities` never touches the cache
store. -/
theorem countEntities_disabled (cfg : RepoConfig) (f : CacheFaults) (m : Manager)
    (fs : List (String × PyVal)) (L : List LogEntry) (O : List StoreOp)
    (hc : cfg.cacheEnabled = false) :
    ∃ r d, ∀ s, countEntities cfg f m fs ⟨s, L, O⟩ = (r, ⟨s, L ++ d, O⟩) := by
  by_cases hfs : fs.isEmpty
  · cases herr : m.countErr with
    | some ex =>
      cases ex with
      | valueError msg =>
        refine ⟨.error (.valueError msg), [], fun s => ?_⟩
        simp [countEntities, safeCacheOperation_disabled _ _ _ _ _ _ hc, hfs,
          managerCount, herr, cntHandle, opHandle]
      | other msg =>
        refine ⟨.error (.valueError ("Count operation failed: " ++ msg)),
          [⟨.error, "Failed to count " ++ cfg.modelName ++ " instances (filters: " ++
            fmtKwargs (sanitizeKwargs fs) ++ "): " ++ msg⟩], fun s => ?_⟩
        simp [countEntities, safeCacheOperation_disabled _ _ _ _ _ _ hc, hfs,
          managerCount, herr, cntHandle, opHandle, withLog]
    | none =>
      refine ⟨.ok (.cnt m.db.length),
        [⟨.debug, "Counted " ++ toString m.db.length ++ " " ++ cfg.modelName ++ " instances"⟩],
        fun s => ?_⟩
      simp [countEntities, safeCacheOperation_disabled _ _ _ _ _ _ hc, hfs,
        managerCount, herr, withLog]
  · cases herr : m.filterErr with
    | some ex =>
      cases ex with
      | valueError msg =>
        refine ⟨.error (.valueError msg), [], fun s => ?_⟩
        simp [countEntities, safeCacheOperation_disabled _ _ _ _ _ _ hc, hfs,
          managerFilter, herr, cntHandle, opHandle, Except.map]
      | other msg =>
        refine ⟨.error (.valueError ("Count operation failed: " ++ msg)),
          [⟨.error, "Failed to count " ++ cfg.modelName ++ " instances (filters: " ++
            fmtKwargs (sanitizeKwargs fs) ++ "): " ++ msg⟩], fun s => ?_⟩
        simp [countEntities, safeCacheOperation_disabled _ _ _ _ _ _ hc, hfs,
          managerFilter, herr, cntHandle, opHandle, withLog, Except.map]
    | none =>
      refine ⟨.ok (.cnt (m.db.filter (fun e => matchesFilters e fs)).length),
        [⟨.debug, "Counted " ++ toString (m.db.filter (fun e => matchesFilters e fs)).length ++
          " " ++ cfg.modelName ++ " instances"⟩], fun s => ?_⟩
      simp [countEntities, safeCacheOperation_disabled _ _ _ _ _ _ hc, hfs,
        managerFilter, herr, withLog, Except.map]

/-- With caching disabled, `exists_entity` (which bypasses the cache by
design) leaves the store and invocation trace unchanged. -/
theorem existsEntity_disabled (cfg : RepoConfig) (m : Manager)
    (fs : List (String × PyVal)) (L : List LogEntry) (O : List StoreOp) :
    ∃ r d, ∀ s, existsEntity cfg m fs ⟨s, L, O⟩ = (r, ⟨s, L ++ d, O⟩) := by
  by_cases hfs : fs.isEmpty
  · exact ⟨.error (.valueError "At least one filter must be provided for existence check"),
      [], fun s => by simp [existsEntity, hfs]⟩
  · cases herr : m.existsErr with
    | some ex =>
      cases ex with
      | valueError msg =>
        refine ⟨.error (.valueError msg), [], fun s => ?_⟩
        simp [existsEntity, hfs, managerExists, herr, opHandle]
      | other msg =>
        refine ⟨.error (.valueError ("Existence check failed: " ++ msg)),
          [⟨.error, "Failed existence check for " ++ cfg.modelName ++ " (filters: " ++
            fmtKwargs (sanitizeKwargs fs) ++ "): " ++ msg⟩], fun s => ?_⟩
        simp [existsEntity, hfs, managerExists, herr, opHandle, withLog]
    | none =>
      refine ⟨.ok (m.db.any (fun e => matchesFilters e fs)),
        [⟨.debug, "Existence check for " ++ cfg.modelName ++ ": " ++
          toString (m.db.any (fun e => matchesFilters e fs))⟩], fun s => ?_⟩
      simp [existsEntity, hfs, managerExists, herr, withLog]

/-- With caching disabled, `clear_cache` leaves the store and invocation
trace unchanged. -/
theorem clearCache_disabled (cfg : RepoConfig) (f : CacheFaults)
    (objId : Option PyVal) (L : List LogEntry) (O : List StoreOp)
    (hc : cfg.cacheEnabled = false) :
    ∃ r d, ∀ s, clearCache cfg f objId ⟨s, L, O⟩ = (r, ⟨s, L ++ d, O⟩) := by
  cases objId with
  | none =>
    refine ⟨.ok (), [⟨.debug, "Cleared collection caches for " ++ cfg.modelName⟩],
      fun s => ?_⟩
    simp [clearCache, invalidateCollectionCaches_disabled _ _ _ hc, withLog]
  | some v =>
    cases hval : validateId v with
    | error ex =>
      exact ⟨.error ex, [], fun s => by simp [clearCache, hval]⟩
    | ok i =>
      refine ⟨.ok (), [⟨.debug, "Cleared cache for " ++ cfg.modelName ++ " ID=" ++ toString i⟩],
        fun s => ?_⟩
      simp [clearCache, hval, safeCacheOperation_disabled _ _ _ _ _ _ hc, withLog]

/-- With caching disabled, `create_entity` leaves the store and
invocation trace unchanged. -/
theorem createEntity_disabled (cfg : RepoConfig) (f : CacheFaults) (m : Manager)
    (kwargs : Option (List (String × PyVal))) (L : List LogEntry) (O : List StoreOp)
    (hc : cfg.cacheEnabled = false) :
    ∃ r d, ∀ s, createEntity cfg f m kwargs ⟨s, L, O⟩ = (r, ⟨s, L ++ d, O⟩) := by
  cases hval : validateKwargs kwargs "create" with
  | error ex =>
    exact ⟨.error ex, [], fun s => by simp [createEntity, hval]⟩
  | ok ck =>
    cases hcr : m.createRes ck with
    | error ex =>
      cases ex with
      | valueError msg =>
        refine ⟨.error (.valueError msg),
          [⟨.debug, "Creating " ++ cfg.modelName ++ " with data: " ++
            fmtKwargs (sanitizeKwargs ck)⟩], fun s => ?_⟩
        simp [createEntity, hval, hcr, opHandle, withLog]
      | other msg =>
        refine ⟨.error (.valueError ("Failed to create entity: " ++ msg)),
          [⟨.debug, "Creating " ++ cfg.modelName ++ " with data: " ++
            fmtKwargs (sanitizeKwargs ck)⟩,
           ⟨.error, "Unexpected error creating " ++ cfg.modelName ++ " with data " ++
            fmtKwargs (sanitizeKwargs ck) ++ ": " ++ msg⟩], fun s => ?_⟩
        simp [createEntity, hval, hcr, opHandle, withLog]
    | ok inst? =>
      cases inst? with
      | none =>
        refine ⟨.error (.valueError "Failed to create entity - manager returned None"),
          [⟨.debug, "Creating " ++ cfg.modelName ++ " with data: " ++
            fmtKwargs (sanitizeKwargs ck)⟩], fun s => ?_⟩
        simp [createEntity, hval, hcr, withLog]
      | some inst =>
        refine ⟨.ok inst,
          [⟨.debug, "Creating " ++ cfg.modelName ++ " with data: " ++
            fmtKwargs (sanitizeKwargs ck)⟩,
           ⟨.info, "Successfully created " ++ cfg.modelName ++ " with ID=" ++
            toString inst.id⟩], fun s => ?_⟩
        simp [createEntity, hval, hcr, invalidateCollectionCaches_disabled _ _ _ hc, withLog]

/-- With caching disabled, `update_entity` leaves the store and
invocation trace unchanged. -/
theorem updateEntity_disabled (cfg : RepoConfig) (f : CacheFaults) (m : Manager)
    (objId : PyVal) (kwargs : Option (List (String × PyVal)))
    (L : List LogEntry) (O : List StoreOp) (hc : cfg.cacheEnabled = false) :
    ∃ r d, ∀ s, updateEntity cfg f m objId kwargs ⟨s, L, O⟩ = (r, ⟨s, L ++ d, O⟩) := by
  cases hval : validateId objId with
  | error ex => exact ⟨.error ex, [], fun s => by simp [updateEntity, hval]⟩
  | ok i =>
    cases hkw : validateKwargs kwargs "update" with
    | error ex => exact ⟨.error ex, [], fun s => by simp [updateEntity, hval, hkw]⟩
    | ok ck =>
      cases herr : m.getByIdErr with
      | some ex =>
        cases ex with
        | valueError msg =>
          refine ⟨.error (.valueError msg), [], fun s => ?_⟩
          simp [updateEntity, hval, hkw, managerGetById, herr, updHandle, opHandle]
        | other msg =>
          refine ⟨.error (.valueError ("Update failed: " ++ msg)),
            [⟨.error, "Failed to update " ++ cfg.modelName ++ " ID=" ++
              pyFormat (sanitizePy objId) ++ " with data " ++
              fmtKwargs (sanitizeKwargs ck) ++ ": " ++ msg⟩], fun s => ?_⟩
          simp [updateEntity, hval, hkw, managerGetById, herr, updHandle, opHandle, withLog]
      | none =>
        cases hfind : m.db.find? (fun e => e.id == i) with
        | none =>
          refine ⟨.ok Option.none,
            [⟨.warning, "Update failed: " ++ cfg.modelName ++ " with ID " ++
              toString i ++ " not found"⟩], fun s => ?_⟩
          simp [updateEntity, hval, hkw, managerGetById, herr, hfind, withLog]
        | some inst =>
          cases hupd : m.updateApply inst ck with
          | error ex =>
            cases ex with
            | valueError msg =>
              refine ⟨.error (.valueError msg), [], fun s => ?_⟩
              simp [updateEntity, hval, hkw, managerGetById, herr, hfind, hupd,
                updHandle, opHandle]
            | other msg =>
              refine ⟨.error (.valueError ("Update failed: " ++ msg)),
                [⟨.error, "Failed to update " ++ cfg.modelName ++ " ID=" ++
                  pyFormat (sanitizePy objId) ++ " with data " ++
                  fmtKwargs (sanitizeKwargs ck) ++ ": " ++ msg⟩], fun s => ?_⟩
              simp [updateEntity, hval, hkw, managerGetById, herr, hfind, hupd,
                updHandle, opHandle, withLog]
          | ok inst2 =>
            refine ⟨.ok (some inst2),
              [⟨.info, "Successfully updated " ++ cfg.modelName ++ " ID=" ++
                toString i ++ " with data: " ++ fmtKwargs (sanitizeKwargs ck)⟩],
              fun s => ?_⟩
            simp [updateEntity, hval, hkw, managerGetById, herr, hfind, hupd,
              safeCacheOperation_disabled _ _ _ _ _ _ hc,
              invalidateCollectionCaches_disabled _ _ _ hc, withLog]

/-- With caching disabled, `delete_entity` leaves the store and
invocation trace unchanged. -/
theorem deleteEntity_disabled (cfg : RepoConfig) (f : CacheFaults) (m : Manager)
    (objId : PyVal) (L : List LogEntry) (O : List StoreOp)
    (hc : cfg.cacheEnabled = false) :
    ∃ r d, ∀ s, deleteEntity cfg f m objId ⟨s, L, O⟩ = (r, ⟨s, L ++ d, O⟩) := by
  cases hval : validateId objId with
  | error ex => exact ⟨.error ex, [], fun s => by simp [deleteEntity, hval]⟩
  | ok i =>
    cases herr : m.getByIdErr with
    | some ex =>
      cases ex with
      | valueError msg =>
        refine ⟨.error (.valueError msg), [], fun s => ?_⟩
        simp [deleteEntity, hval, managerGetById, herr, delHandle, opHandle]
      | other msg =>
        refine ⟨.error (.valueError ("Deletion failed: " ++ msg)),
          [⟨.error, "Failed to delete " ++ cfg.modelName ++ " ID=" ++
            pyFormat (sanitizePy objId) ++ ": " ++ msg⟩], fun s => ?_⟩
        simp [deleteEntity, hval, managerGetById, herr, delHandle, opHandle, withLog]
    | none =>
      cases hfind : m.db.find? (fun e => e.id == i) with
      | none =>
        refine ⟨.ok Option.none,
          [⟨.warning, "Delete failed: " ++ cfg.modelName ++ " with ID " ++
            toString i ++ " not found"⟩], fun s => ?_⟩
        simp [deleteEntity, hval, managerGetById, herr, hfind, withLog]
      | some inst =>
        cases hdel : m.deleteApply inst with
        | error ex =>
          cases ex with
          | valueError msg =>
            refine ⟨.error (.valueError msg), [], fun s => ?_⟩
            simp [deleteEntity, hval, managerGetById, herr, hfind, hdel,
              delHandle, opHandle]
          | other msg =>
            refine ⟨.error (.valueError ("Deletion failed: " ++ msg)),
              [⟨.error, "Failed to delete " ++ cfg.modelName ++ " ID=" ++
                pyFormat (sanitizePy objId) ++ ": " ++ msg⟩], fun s => ?_⟩
            simp [deleteEntity, hval, managerGetById, herr, hfind, hdel,
              delHandle, opHandle, withLog]
        | ok u =>
          refine ⟨.ok (some inst),
            [⟨.info, "Successfully deleted " ++ cfg.modelName ++ " ID=" ++ toString i⟩],
            fun s => ?_⟩
          simp [deleteEntity, hval, managerGetById, herr, hfind, hdel,
            safeCacheOperation_disabled _ _ _ _ _ _ hc,
            invalidateCollectionCaches_disabled _ _ _ hc, withLog]

/-- With caching disabled, `bulk_create_entities` leaves the store and
invocation trace unchanged. -/
theorem bulkCreateEntities_disabled (cfg : RepoConfig) (f : CacheFaults)
    (m : Manager) (instances : Option (List Inst)) (batchSize : PyVal)
    (L : List LogEntry) (O : List StoreOp) (hc : cfg.cacheEnabled = false) :
    ∃ r d, ∀ s, bulkCreateEntities cfg f m instances batchSize ⟨s, L, O⟩ =
      (r, ⟨s, L ++ d, O⟩) := by
  cases hv : validateInstancesList instances "bulk create" with
  | error ex => exact ⟨.error ex, [], fun s => by simp [bulkCreateEntities, hv]⟩
  | ok vi =>
    cases batchSize with
    | int b =>
      by_cases hb : b ≤ 0
      · exact ⟨.error (.valueError ("Batch size must be a positive integer, got " ++ toString b)),
          [], fun s => by simp [bulkCreateEntities, hv, hb]⟩
      · cases hbc : m.bulkCreateRes vi b with
        | error ex =>
          cases ex with
          | valueError msg =>
            refine ⟨.error (.valueError msg),
              [⟨.debug, "Starting bulk create of " ++ toString vi.length ++ " " ++
                cfg.modelName ++ " instances"⟩], fun s => ?_⟩
            simp [bulkCreateEntities, hv, hb, hbc, opHandle, withLog]
          | other msg =>
            refine ⟨.error (.valueError ("Bulk create failed: " ++ msg)),
              [⟨.debug, "Starting bulk create of " ++ toString vi.length ++ " " ++
                cfg.modelName ++ " instances"⟩,
               ⟨.error, "Unexpected error during bulk create of " ++ cfg.modelName ++
                ": " ++ msg⟩], fun s => ?_⟩
            simp [bulkCreateEntities, hv, hb, hbc, opHandle, withLog]
        | ok created =>
          by_cases hcr : created.isEmpty
          · refine ⟨.error (.valueError "Bulk create failed - no instances were created"),
              [⟨.debug, "Starting bulk create of " ++ toString vi.length ++ " " ++
                cfg.modelName ++ " instances"⟩], fun s => ?_⟩
            simp [bulkCreateEntities, hv, hb, hbc, hcr, withLog]
          · refine ⟨.ok created,
              [⟨.debug, "Starting bulk create of " ++ toString vi.length ++ " " ++
                cfg.modelName ++ " instances"⟩,
               ⟨.info, "Successfully created " ++ toString created.length ++ "/" ++
                toString vi.length ++ " " ++ cfg.modelName ++ " instances"⟩],
              fun s => ?_⟩
            simp [bulkCreateEntities, hv, hb, hbc, hcr,
              invalidateCollectionCaches_disabled _ _ _ hc, withLog]
    | none =>
      exact ⟨.error (.valueError ("Batch size must be a positive integer, got " ++ pyFormat .none)),
        [], fun s => by simp [bulkCreateEntities, hv]⟩
    | str t =>
      exact ⟨.error (.valueError ("Batch size must be a positive integer, got " ++ pyFormat (.str t))),
        [], fun s => by simp [bulkCreateEntities, hv]⟩
    | obj t =>
      exact ⟨.error (.valueError ("Batch size must be a positive integer, got " ++ pyFormat (.obj t))),
        [], fun s => by simp [bulkCreateEntities, hv]⟩

/-- With caching disabled, `bulk_update_entities` leaves the store and
invocation trace unchanged. -/
theorem bulkUpdateEntities_disabled (cfg : RepoConfig) (f : CacheFaults)
    (m : Manager) (instances : Option (List Inst)) (fields : Option (List PyVal))
    (batchSize : PyVal) (L : List LogEntry) (O : List StoreOp)
    (hc : cfg.cacheEnabled = false) :
    ∃ r d, ∀ s, bulkUpdateEntities cfg f m instances fields batchSize ⟨s, L, O⟩ =
      (r, ⟨s, L ++ d, O⟩) := by
  cases hv : validateInstancesList instances "bulk update" with
  | error ex => exact ⟨.error ex, [], fun s => by simp [bulkUpdateEntities, hv]⟩
  | ok vi =>
    cases hfl : validateFieldsList fields "bulk update" with
    | error ex => exact ⟨.error ex, [], fun s => by simp [bulkUpdateEntities, hv, hfl]⟩
    | ok vf =>
      cases batchSize with
      | int b =>
        by_cases hb : b ≤ 0
        · exact ⟨.error (.valueError ("Batch size must be a positive integer, got " ++ toString b)),
            [], fun s => by simp [bulkUpdateEntities, hv, hfl, hb]⟩
        · cases hbc : m.bulkUpdateRes vi vf b with
          | error ex =>
            cases ex with
            | valueError msg =>
              refine ⟨.error (.valueError msg),
                [⟨.debug, "Starting bulk update of " ++ toString vi.length ++ " " ++
                  cfg.modelName ++ " instances"⟩], fun s => ?_⟩
              simp [bulkUpdateEntities, hv, hfl, hb, hbc, opHandle, withLog]
            | other msg =>
              refine ⟨.error (.valueError ("Bulk update failed: " ++ msg)),
                [⟨.debug, "Starting bulk update of " ++ toString vi.length ++ " " ++
                  cfg.modelName ++ " instances"⟩,
                 ⟨.error, "Unexpected error during bulk update of " ++ cfg.modelName ++
                  " instances: " ++ msg⟩], fun s => ?_⟩
              simp [bulkUpdateEntities, hv, hfl, hb, hbc, opHandle, withLog]
          | ok updated =>
            by_cases hcr : updated.isEmpty
            · refine ⟨.error (.valueError "Bulk update failed - no instances were updated"),
                [⟨.debug, "Starting bulk update of " ++ toString vi.length ++ " " ++
                  cfg.modelName ++ " instances"⟩], fun s => ?_⟩
              simp [bulkUpdateEntities, hv, hfl, hb, hbc, hcr, withLog]
            · refine ⟨.ok updated,
                [⟨.debug, "Starting bulk update of " ++ toString vi.length ++ " " ++
                  cfg.modelName ++ " instances"⟩,
                 ⟨.info, "Successfully updated " ++ toString updated.length ++ "/" ++
                  toString vi.length ++ " " ++ cfg.modelName ++ " instances"⟩],
                fun s => ?_⟩
              simp [bulkUpdateEntities, hv, hfl, hb, hbc, hcr,
                invalidateCollectionCaches_disabled _ _ _ hc, withLog]
      | none =>
        exact ⟨.error (.valueError ("Batch size must be a positive integer, got " ++ pyFormat .none)),
          [], fun s => by simp [bulkUpdateEntities, hv, hfl]⟩
      | str t =>
        exact ⟨.error (.valueError ("Batch size must be a positive integer, got " ++ pyFormat (.str t))),
          [], fun s => by simp [bulkUpdateEntities, hv, hfl]⟩
      | obj t =>
        exact ⟨.error (.valueError ("Batch size must be a positive integer, got " ++ pyFormat (.obj t))),
          [], fun s => by simp [bulkUpdateEntities, hv, hfl]⟩

/-- With caching disabled, the core of `bulk_delete_entities` leaves the
store and invocation trace unchanged. -/
theorem bulkDeleteCore_disabled (cfg : RepoConfig) (f : CacheFaults)
    (m : Manager) (fs : List (String × PyVal)) (L : List LogEntry)
    (O : List StoreOp) (hc : cfg.cacheEnabled = false) :
    ∃ r d, ∀ s, bulkDeleteCore cfg f m fs ⟨s, L, O⟩ = (r, ⟨s, L ++ d, O⟩) := by
  cases hbd : m.bulkDeleteErr with
  | some ex =>
    cases ex with
    | valueError msg =>
      refine ⟨.error (.valueError msg),
        [⟨.debug, "Starting bulk delete of " ++ cfg.modelName ++ " instances (filters: " ++
          fmtKwargs (sanitizeKwargs fs) ++ ")"⟩], fun s => ?_⟩
      simp [bulkDeleteCore, managerBulkDelete, hbd, opHandle, withLog]
    | other msg =>
      refine ⟨.error (.valueError ("Bulk delete failed: " ++ msg)),
        [⟨.debug, "Starting bulk delete of " ++ cfg.modelName ++ " instances (filters: " ++
          fmtKwargs (sanitizeKwargs fs) ++ ")"⟩,
         ⟨.error, "Unexpected error during bulk delete of " ++ cfg.modelName ++
          " instances: " ++ msg⟩], fun s => ?_⟩
      simp [bulkDeleteCore, managerBulkDelete, hbd, opHandle, withLog]
  | none =>
    refine ⟨.ok (m.db.filter (fun e => matchesFilters e fs),
        (m.db.filter (fun e => matchesFilters e fs)).length),
      [⟨.debug, "Starting bulk delete of " ++ cfg.modelName ++ " instances (filters: " ++
        fmtKwargs (sanitizeKwargs fs) ++ ")"⟩,
       ⟨.info, "Successfully deleted " ++
        toString (m.db.filter (fun e => matchesFilters e fs)).length ++ " " ++
        cfg.modelName ++ " instances"⟩], fun s => ?_⟩
    simp [bulkDeleteCore, managerBulkDelete, hbd,
      invalidateCollectionCaches_disabled _ _ _ hc, withLog]

/-- With caching disabled, `bulk_delete_entities` leaves the store and
invocation trace unchanged. -/
theorem bulkDeleteEntities_disabled (cfg : RepoConfig) (f : CacheFaults)
    (m : Manager) (instances : Option (List Inst)) (fs : List (String × PyVal))
    (L : List LogEntry) (O : List StoreOp) (hc : cfg.cacheEnabled = false) :
    ∃ r d, ∀ s, bulkDeleteEntities cfg f m instances fs ⟨s, L, O⟩ =
      (r, ⟨s, L ++ d, O⟩) := by
  cases instances with
  | some l =>
    cases hv : validateInstancesList (some l) "bulk delete" with
    | error ex => exact ⟨.error ex, [], fun s => by simp [bulkDeleteEntities, hv]⟩
    | ok vi =>
      obtain ⟨r, d, hcore⟩ := bulkDeleteCore_disabled cfg f m fs L O hc
      exact ⟨r, d, fun s => by simp only [bulkDeleteEntities, hv]; exact hcore s⟩
  | none =>
    by_cases hfs : fs.isEmpty
    · exact ⟨.error (.valueError "Either instances list or filters must be provided for bulk delete"),
        [], fun s => by simp [bulkDeleteEntities, hfs]⟩
    · obtain ⟨r, d, hcore⟩ := bulkDeleteCore_disabled cfg f m fs L O hc
      exact ⟨r, d, fun s => by simp only [bulkDeleteEntities, hfs, if_false]; exact hcore s⟩

/-- The iterator's result and fetch trace are independent of the cache
store, which it never reads or writes. -/
theorem getEntitiesIterator_eff (cfg : RepoConfig) (m : Manager)
    (batchSize : PyVal) (L : List LogEntry) (O : List StoreOp) :
    ∃ r tr d, ∀ s, getEntitiesIterator cfg m batchSize ⟨s, L, O⟩ =
      (r, tr, ⟨s, L ++ d, O⟩) := by
  cases batchSize with
  | int b =>
    by_cases hb : b ≤ 0
    · exact ⟨.error (.valueError ("Batch size must be a positive integer, got " ++ toString b)),
        [], [], fun s => by simp [getEntitiesIterator, hb]⟩
    · cases herr : m.getAllErr with
      | some ex =>
        refine ⟨.error (.valueError ("Iterator failed: " ++ ex.msg)), [(b.toNat, 0)],
          [⟨.error, "Failed to fetch " ++ cfg.modelName ++ " instances from DB: " ++ ex.msg⟩,
           ⟨.error, "Error in entities iterator for " ++ cfg.modelName ++ ": " ++ ex.msg⟩],
          fun s => ?_⟩
        simp only [getEntitiesIterator, managerGetAll, herr]
        rw [dif_neg hb]
        simp [withLog]
      | none =>
        refine ⟨.ok (iterLoop m.db b.toNat (by omega) 0).1,
          (iterLoop m.db b.toNat (by omega) 0).2,
          (iterLoop m.db b.toNat (by omega) 0).2.map (fun p =>
            ⟨.debug, "Successfully fetched " ++
              toString (sliceAll m.db (some p.1) p.2).length ++ " " ++
              cfg.modelName ++ " instances"⟩), fun s => ?_⟩
        simp only [getEntitiesIterator, managerGetAll, herr]
        rw [dif_neg hb]
  | none =>
    exact ⟨.error (.valueError ("Batch size must be a positive integer, got " ++ pyFormat .none)),
      [], [], fun s => by simp [getEntitiesIterator]⟩
  | str t =>
    exact ⟨.error (.valueError ("Batch size must be a positive integer, got " ++ pyFormat (.str t))),
      [], [], fun s => by simp [getEntitiesIterator]⟩
  | obj t =>
    exact ⟨.error (.valueError ("Batch size must be a positive integer, got " ++ pyFormat (.obj t))),
      [], [], fun s => by simp [getEntitiesIterator]⟩

/-- With caching disabled, `get_paginated_entities` leaves the store and
invocation trace unchanged. -/
theorem getPaginatedEntities_disabled (cfg : RepoConfig) (f : CacheFaults)
    (m : Manager) (page perPage : Int) (fs : List (String × PyVal))
    (L : List LogEntry) (O : List StoreOp) (hc : cfg.cacheEnabled = false) :
    ∃ r d, ∀ s, getPaginatedEntities cfg f m page perPage fs ⟨s, L, O⟩ =
      (r, ⟨s, L ++ d, O⟩) := by
  by_cases h1 : page < 1
  · exact ⟨.error (.valueError ("Page must be a positive integer, got " ++ toString page)),
      [], fun s => by simp [getPaginatedEntities, h1]⟩
  by_cases h2 : perPage < 1
  · exact ⟨.error (.valueError ("Per-page count must be a positive integer, got " ++ toString perPage)),
      [], fun s => by simp [getPaginatedEntities, h1, h2]⟩
  by_cases h3 : perPage > 1000
  · exact ⟨.error (.valueError ("Per-page count too large, maximum is 1000, got " ++ toString perPage)),
      [], fun s => by simp [getPaginatedEntities, h1, h2, h3]⟩
  obtain ⟨rc, dc, hcount⟩ := countEntities_disabled cfg f m fs L O hc
  cases rc with
  | error ex =>
    cases ex with
    | valueError msg =>
      refine ⟨.error (.valueError msg), dc, fun s => ?_⟩
      simp [getPaginatedEntities, h1, h2, h3, hcount s, pagHandle, opHandle]
    | other msg =>
      refine ⟨.error (.valueError ("Pagination failed: " ++ msg)),
        dc ++ [⟨.error, "Failed to get paginated " ++ cfg.modelName ++ " entities (page=" ++
          toString page ++ ", per_page=" ++ toString perPage ++ "): " ++ msg⟩],
        fun s => ?_⟩
      simp [getPaginatedEntities, h1, h2, h3, hcount s, pagHandle, opHandle, withLog]
  | ok cv =>
    cases cv with
    | ent e =>
      refine ⟨.error (.valueError ("Pagination failed: unsupported operand type(s) for +: cached total is not an int")),
        dc ++ [⟨.error, "Failed to get paginated " ++ cfg.modelName ++ " entities (page=" ++
          toString page ++ ", per_page=" ++ toString perPage ++ "): " ++
          "unsupported operand type(s) for +: cached total is not an int"⟩],
        fun s => ?_⟩
      simp [getPaginatedEntities, h1, h2, h3, hcount s, pagHandle, opHandle, withLog]
    | ents l =>
      refine ⟨.error (.valueError ("Pagination failed: unsupported operand type(s) for +: cached total is not an int")),
        dc ++ [⟨.error, "Failed to get paginated " ++ cfg.modelName ++ " entities (page=" ++
          toString page ++ ", per_page=" ++ toString perPage ++ "): " ++
          "unsupported operand type(s) for +: cached total is not an int"⟩],
        fun s => ?_⟩
      simp [getPaginatedEntities, h1, h2, h3, hcount s, pagHandle, opHandle, withLog]
    | cnt tc =>
      by_cases hfs : fs.isEmpty
      · obtain ⟨res, lvl, msg, hfetch⟩ := fetchAllEntities_shape cfg m
          (some perPage.toNat) ((page.toNat - 1) * perPage.toNat)
        cases res with
        | error ex =>
          cases ex with
          | valueError msg2 =>
            refine ⟨.error (.valueError msg2), dc ++ [⟨lvl, msg⟩], fun s => ?_⟩
            simp [getPaginatedEntities, h1, h2, h3, hcount s, hfs, hfetch,
              pagHandle, opHandle, withLog]
          | other msg2 =>
            refine ⟨.error (.valueError ("Pagination failed: " ++ msg2)),
              dc ++ [⟨lvl, msg⟩,
                ⟨.error, "Failed to get paginated " ++ cfg.modelName ++ " entities (page=" ++
                  toString page ++ ", per_page=" ++ toString perPage ++ "): " ++ msg2⟩],
              fun s => ?_⟩
            simp [getPaginatedEntities, h1, h2, h3, hcount s, hfs, hfetch,
              pagHandle, opHandle, withLog]
        | ok es =>
          refine ⟨.ok (PageResult.mk es tc page.toNat perPage.toNat
              ((tc + perPage.toNat - 1) / perPage.toNat)
              (decide (page.toNat < (tc + perPage.toNat - 1) / perPage.toNat))
              (decide (page.toNat > 1))),
            dc ++ [⟨lvl, msg⟩,
              ⟨.debug, "Retrieved page " ++ toString page.toNat ++ " of " ++
                cfg.modelName ++ " entities"⟩], fun s => ?_⟩
          simp [getPaginatedEntities, h1, h2, h3, hcount s, hfs, hfetch, withLog]
      · cases hflt : m.filterErr with
        | some ex =>
          cases ex with
          | valueError msg2 =>
            refine ⟨.error (.valueError msg2), dc, fun s => ?_⟩
            simp [getPaginatedEntities, h1, h2, h3, hcount s, hfs, managerFilter,
              hflt, pagHandle, opHandle]
          | other msg2 =>
            refine ⟨.error (.valueError ("Pagination failed: " ++ msg2)),
              dc ++ [⟨.error, "Failed to get paginated " ++ cfg.modelName ++ " entities (page=" ++
                toString page ++ ", per_page=" ++ toString perPage ++ "): " ++ msg2⟩],
              fun s => ?_⟩
            simp [getPaginatedEntities, h1, h2, h3, hcount s, hfs, managerFilter,
              hflt, pagHandle, opHandle, withLog]
        | none =>
          refine ⟨.ok (PageResult.mk
              (((m.db.filter (fun e => matchesFilters e fs)).drop
                ((page.toNat - 1) * perPage.toNat)).take perPage.toNat)
              tc page.toNat perPage.toNat
              ((tc + perPage.toNat - 1) / perPage.toNat)
              (decide (page.toNat < (tc + perPage.toNat - 1) / perPage.toNat))
              (decide (page.toNat > 1))),
            dc ++ [⟨.debug, "Retrieved page " ++ toString page.toNat ++ " of " ++
              cfg.modelName ++ " entities"⟩], fun s => ?_⟩
          simp [getPaginatedEntities, h1, h2, h3, hcount s, hfs, managerFilter,
            hflt, withLog]

/-- C9: with caching disabled (the construction default), every
repository operation returns a result that does not depend on the cache
store's contents — two runs over different stores agree — and the store
is returned unchanged with no cache-store invocation recorded. -/
theorem spec_c9_disabled_independence :
    ∀ (cfg : RepoConfig), cfg.cacheEnabled = false →
    ∀ (f : CacheFaults) (m : Manager) (L : List LogEntry) (O : List StoreOp)
      (s1 s2 : List (String × CVal)),
      (∀ objId,
        (getEntityById cfg f m objId ⟨s1, L, O⟩).1 =
          (getEntityById cfg f m objId ⟨s2, L, O⟩).1 ∧
        (getEntityById cfg f m objId ⟨s1, L, O⟩).2.store = s1 ∧
        (getEntityById cfg f m objId ⟨s1, L, O⟩).2.ops = O) ∧
      (∀ limit offset,
        (getAllEntities cfg f m limit offset ⟨s1, L, O⟩).1 =
          (getAllEntities cfg f m limit offset ⟨s2, L, O⟩).1 ∧
        (getAllEntities cfg f m limit offset ⟨s1, L, O⟩).2.store = s1 ∧
        (getAllEntities cfg f m limit offset ⟨s1, L, O⟩).2.ops = O) ∧
      (∀ fs,
        (countEntities cfg f m fs ⟨s1, L, O⟩).1 =
          (countEntities cfg f m fs ⟨s2, L, O⟩).1 ∧
        (countEntities cfg f m fs ⟨s1, L, O⟩).2.store = s1 ∧
        (countEntities cfg f m fs ⟨s1, L, O⟩).2.ops = O) ∧
      (∀ fs,
        (existsEntity cfg m fs ⟨s1, L, O⟩).1 =
          (existsEntity cfg m fs ⟨s2, L, O⟩).1 ∧
        (existsEntity cfg m fs ⟨s1, L, O⟩).2.store = s1 ∧
        (existsEntity cfg m fs ⟨s1, L, O⟩).2.ops = O) ∧
      (∀ page perPage fs,
        (getPaginatedEntities cfg f m page perPage fs ⟨s1, L, O⟩).1 =
          (getPaginatedEntities cfg f m page perPage fs ⟨s2, L, O⟩).1 ∧
        (getPaginatedEntities cfg f m page perPage fs ⟨s1, L, O⟩).2.store = s1 ∧
        (getPaginatedEntities cfg f m page perPage fs ⟨s1, L, O⟩).2.ops = O) ∧
      (∀ kw,
        (createEntity cfg f m kw ⟨s1, L, O⟩).1 = (createEntity cfg f m kw ⟨s2, L, O⟩).1 ∧
        (createEntity cfg f m kw ⟨s1, L, O⟩).2.store = s1 ∧
        (createEntity cfg f m kw ⟨s1, L, O⟩).2.ops = O) ∧
      (∀ objId kw,
        (updateEntity cfg f m objId kw ⟨s1, L, O⟩).1 =
          (updateEntity cfg f m objId kw ⟨s2, L, O⟩).1 ∧
        (updateEntity cfg f m objId kw ⟨s1, L, O⟩).2.store = s1 ∧
        (updateEntity cfg f m objId kw ⟨s1, L, O⟩).2.ops = O) ∧
      (∀ objId,
        (deleteEntity cfg f m objId ⟨s1, L, O⟩).1 =
          (deleteEntity cfg f m objId ⟨s2, L, O⟩).1 ∧
        (deleteEntity cfg f m objId ⟨s1, L, O⟩).2.store = s1 ∧
        (deleteEntity cfg f m objId ⟨s1, L, O⟩).2.ops = O) ∧
      (∀ inst bs,
        (bulkCreateEntities cfg f m inst bs ⟨s1, L, O⟩).1 =
          (bulkCreateEntities cfg f m inst bs ⟨s2, L, O⟩).1 ∧
        (bulkCreateEntities cfg f m inst bs ⟨s1, L, O⟩).2.store = s1 ∧
        (bulkCreateEntities cfg f m inst bs ⟨s1, L, O⟩).2.ops = O) ∧
      (∀ inst fl bs,
        (bulkUpdateEntities cfg f m inst fl bs ⟨s1, L, O⟩).1 =
          (bulkUpdateEntities cfg f m inst fl bs ⟨s2, L, O⟩).1 ∧
        (bulkUpdateEntities cfg f m inst fl bs ⟨s1, L, O⟩).2.store = s1 ∧
        (bulkUpdateEntities cfg f m inst fl bs ⟨s1, L, O⟩).2.ops = O) ∧
      (∀ inst fs,
        (bulkDeleteEntities cfg f m inst fs ⟨s1, L, O⟩).1 =
          (bulkDeleteEntities cfg f m inst fs ⟨s2, L, O⟩).1 ∧
        (bulkDeleteEntities cfg f m inst fs ⟨s1, L, O⟩).2.store = s1 ∧
        (bulkDeleteEntities cfg f m inst fs ⟨s1, L, O⟩).2.ops = O) ∧
      (∀ objId,
        (clearCache cfg f objId ⟨s1, L, O⟩).1 = (clearCache cfg f objId ⟨s2, L, O⟩).1 ∧
        (clearCache cfg f objId ⟨s1, L, O⟩).2.store = s1 ∧
        (clearCache cfg f objId ⟨s1, L, O⟩).2.ops = O) ∧
      (∀ bs,
        (getEntitiesIterator cfg m bs ⟨s1, L, O⟩).1 =
          (getEntitiesIterator cfg m bs ⟨s2, L, O⟩).1 ∧
        (getEntitiesIterator cfg m bs ⟨s1, L, O⟩).2.1 =
          (getEntitiesIterator cfg m bs ⟨s2, L, O⟩).2.1 ∧
        (getEntitiesIterator cfg m bs ⟨s1, L, O⟩).2.2.store = s1 ∧
        (getEntitiesIterator cfg m bs ⟨s1, L, O⟩).2.2.ops = O) := by
  intro cfg hc f m L O s1 s2
  refine ⟨?_, ?_, ?_, ?_, ?_, ?_, ?_, ?_, ?_, ?_, ?_, ?_, ?_⟩
  · intro objId
    obtain ⟨r, d, h⟩ := getEntityById_disabled cfg f m objId L O hc
    rw [h s1, h s2]
    exact ⟨rfl, rfl, rfl⟩
  · intro limit offset
    obtain ⟨r, d, h⟩ := getAllEntities_disabled cfg f m limit offset L O hc
    rw [h s1, h s2]
    exact ⟨rfl, rfl, rfl⟩
  · intro fs
    obtain ⟨r, d, h⟩ := countEntities_disabled cfg f m fs L O hc
    rw [h s1, h s2]
    exact ⟨rfl, rfl, rfl⟩
  · intro fs
    obtain ⟨r, d, h⟩ := existsEntity_disabled cfg m fs L O
    rw [h s1, h s2]
    exact ⟨rfl, rfl, rfl⟩
  · intro page perPage fs
    obtain ⟨r, d, h⟩ := getPaginatedEntities_disabled cfg f m page perPage fs L O hc
    rw [h s1, h s2]
    exact ⟨rfl, rfl, rfl⟩
  · intro kw
    obtain ⟨r, d, h⟩ := createEntity_disabled cfg f m kw L O hc
    rw [h s1, h s2]
    exact ⟨rfl, rfl, rfl⟩
  · intro objId kw
    obtain ⟨r, d, h⟩ := updateEntity_disabled cfg f m objId kw L O hc
    rw [h s1, h s2]
    exact ⟨rfl, rfl, rfl⟩
  · intro objId
    obtain ⟨r, d, h⟩ := deleteEntity_disabled cfg f m objId L O hc
    rw [h s1, h s2]
    exact ⟨rfl, rfl, rfl⟩
  · intro inst bs
    obtain ⟨r, d, h⟩ := bulkCreateEntities_disabled cfg f m inst bs L O hc
    rw [h s1, h s2]
    exact ⟨rfl, rfl, rfl⟩
  · intro inst fl bs
    obtain ⟨r, d, h⟩ := bulkUpdateEntities_disabled cfg f m inst fl bs L O hc
    rw [h s1, h s2]
    exact ⟨rfl, rfl, rfl⟩
  · intro inst fs
    obtain ⟨r, d, h⟩ := bulkDeleteEntities_disabled cfg f m inst fs L O hc
    rw [h s1, h s2]
    exact ⟨rfl, rfl, rfl⟩
  · intro objId
    obtain ⟨r, d, h⟩ := clearCache_disabled cfg f objId L O hc
    rw [h s1, h s2]
    exact ⟨rfl, rfl, rfl⟩
  · intro bs
    obtain ⟨r, tr, d, h⟩ := getEntitiesIterator_eff cfg m bs L O
    rw [h s1, h s2]
    exact ⟨rfl, rfl, rfl, rfl⟩

/-- Witness for C9: concrete runs of `get_entity_by_id` and `get_all`
with caching disabled agree across two different cache stores, touch no
cache, and leave the store unchanged. -/
theorem spec_c9_witness :
    ((getEntityById cfgOff allFaults mC5 (.int 1) ⟨effC5.store, [], []⟩).1 =
      (getEntityById cfgOff allFaults mC5 (.int 1) ⟨[], [], []⟩).1) ∧
    (getEntityById cfgOff allFaults mC5 (.int 1) ⟨effC5.store, [], []⟩).2.store =
      effC5.store ∧
    (getEntityById cfgOff allFaults mC5 (.int 1) ⟨effC5.store, [], []⟩).2.ops = [] ∧
    ((getAllEntities cfgOff allFaults mC5 (some 1) 0 ⟨effC5.store, [], []⟩).1 =
      (getAllEntities cfgOff allFaults mC5 (some 1) 0 ⟨[], [], []⟩).1) := by
  have h := spec_c9_disabled_independence cfgOff rfl allFaults mC5 [] [] effC5.store []
  have h1 := h.1 (.int 1)
  have h2 := (h.2.1) (some 1) 0
  exact ⟨h1.1, h1.2.1, h1.2.2, h2.1⟩
